import Mathlib

/-!
Verification development for the ontology-aware memory system backend
(`src/backend/app`).  The Python services are shallowly embedded as pure Lean
functions over an explicit database-state record.  Strings are modelled as
`List Char`, Python floats as `ℚ` except where the source computes cosine
similarity through a square root, which is modelled with `ℝ` and `Real.sqrt`.
External providers (OpenAI embeddings, the chat LLM, the classifier LLM) are
modelled as oracle parameters; everything else is translated from the source.
-/

namespace OMem

/-- Strings are modelled as lists of characters. -/
abbrev Str := List Char

/-- Embedding of Python `str.lower()` restricted to ASCII: uppercase letters
are shifted to lowercase, all other characters are unchanged. -/
def lowerChar (c : Char) : Char :=
  if 'A' ≤ c ∧ c ≤ 'Z' then Char.ofNat (c.toNat + 32) else c

/-- `str.lower()` on a whole string. -/
def lowerStr (s : Str) : Str := s.map lowerChar

/-- Python regex `\d`: an ASCII decimal digit. -/
def isDigitChar (c : Char) : Bool := '0' ≤ c ∧ c ≤ '9'

/-- Python regex `\w` (ASCII): letter, digit or underscore; used for the
word-boundary assertion `\b`. -/
def isWordChar (c : Char) : Bool :=
  ('a' ≤ c ∧ c ≤ 'z') ∨ ('A' ≤ c ∧ c ≤ 'Z') ∨ isDigitChar c ∨ c = '_'

/-- `pat.isPrefixOf s` written out so that induction proofs stay in full
control of the unfolding. -/
def startsWith (pat s : Str) : Bool :=
  match pat, s with
  | [], _ => true
  | _ :: _, [] => false
  | p :: ps, c :: cs => p = c ∧ startsWith ps cs

/-- Python `sub in s`: substring containment. -/
def containsSub (s sub : Str) : Bool :=
  match s with
  | [] => startsWith sub []
  | _ :: cs => startsWith sub s || containsSub cs sub

/-- Python `str.split()`: split on runs of whitespace, dropping empty words. -/
def pySplitAux (cur : Str) (s : Str) : List Str :=
  match s with
  | [] => if cur = [] then [] else [cur.reverse]
  | c :: cs =>
      if c.isWhitespace then
        if cur = [] then pySplitAux [] cs else cur.reverse :: pySplitAux [] cs
      else pySplitAux (c :: cur) cs

/-- Python `str.split()` (no separator argument). -/
def pySplit (s : Str) : List Str := pySplitAux [] s

/-- Set-style member count used for Python `set` cardinalities: the number of
distinct elements of the list. -/
def setSize (l : List Str) : Nat := l.eraseDups.length

/-- Python `set(a) & set(b)` realised as the distinct elements of `a` that
also occur in `b`. -/
def setInter (a b : List Str) : List Str :=
  a.eraseDups.filter (fun w => b.contains w)

/-- Python `set(a) | set(b)` cardinality. -/
def setUnionSize (a b : List Str) : Nat := (a ++ b).eraseDups.length

/-- Python `str.replace(pat, rep)` (all occurrences, scanning left to right).
The recursion is fuelled; fuel at least `s.length` is exact, `pyReplace`
supplies it.  With empty fuel the remaining text is returned unchanged. -/
def pyReplaceF (fuel : Nat) (s pat rep : Str) : Str :=
  match fuel with
  | 0 => s
  | fuel + 1 =>
      match s with
      | [] => []
      | c :: cs =>
          if startsWith pat s ∧ pat ≠ [] then
            rep ++ pyReplaceF fuel (s.drop pat.length) pat rep
          else
            c :: pyReplaceF fuel cs pat rep

/-- Python `str.replace(pat, rep)`.  The sources only call it with non-empty
patterns (phone-number matches). -/
def pyReplace (s pat rep : Str) : Str := pyReplaceF s.length s pat rep

/-- Parse exactly `n` ASCII digits from the front of `s`, returning the
consumed digits and the rest. -/
def parseDigits (n : Nat) (s : Str) : Option (Str × Str) :=
  match n with
  | 0 => some ([], s)
  | n + 1 =>
      match s with
      | [] => none
      | c :: cs =>
          if isDigitChar c then
            (parseDigits n cs).map (fun r => (c :: r.1, r.2))
          else none

/-- A phone-number separator: `[-.]` in the pattern. -/
def isSepChar (c : Char) : Bool := c = '-' ∨ c = '.'

/-- Word boundary `\b` after the final digit: the rest of the input must be
empty or start with a non-word character. -/
def endBoundary (s : Str) : Bool :=
  match s with
  | [] => true
  | c :: _ => !isWordChar c

/-- `\d{4}\b`: four digits followed by a word boundary. -/
def parse4End (s : Str) : Option (Str × Str) :=
  match parseDigits 4 s with
  | some (d4, rest) => if endBoundary rest then some (d4, rest) else none
  | none => none

/-- `\d{3}[-.]?\d{4}\b` with the greedy optional separator: try the separator
first, fall back to the empty alternative. -/
def parseMid (s : Str) : Option (Str × Str) :=
  match parseDigits 3 s with
  | none => none
  | some (d3, r) =>
      match r with
      | c :: r2 =>
          if isSepChar c then
            match parse4End r2 with
            | some (d4, rest) => some (d3 ++ [c] ++ d4, rest)
            | none =>
                match parse4End r with
                | some (d4, rest) => some (d3 ++ d4, rest)
                | none => none
          else
            match parse4End r with
            | some (d4, rest) => some (d3 ++ d4, rest)
            | none => none
      | [] => none

/-- Try to match `\d{3}[-.]?\d{3}[-.]?\d{4}\b` at the start of `s` (the
leading `\b` is checked by the scanner).  Returns the matched text and the
remaining input. -/
def tryPhone (s : Str) : Option (Str × Str) :=
  match parseDigits 3 s with
  | none => none
  | some (d3, r) =>
      match r with
      | c :: r2 =>
          if isSepChar c then
            match parseMid r2 with
            | some (mid, rest) => some (d3 ++ [c] ++ mid, rest)
            | none =>
                match parseMid r with
                | some (mid, rest) => some (d3 ++ mid, rest)
                | none => none
          else
            match parseMid r with
            | some (mid, rest) => some (d3 ++ mid, rest)
            | none => none
      | [] => none

/-- Scanner for `re.findall(r'\b\d{3}[-.]?\d{3}[-.]?\d{4}\b', text)`:
left-to-right, non-overlapping.  `prev` is the character before the current
position (for the leading `\b`); fuel `text.length + 1` is exact. -/
def phoneFindAux (fuel : Nat) (prev : Option Char) (s : Str) : List Str :=
  match fuel with
  | 0 => []
  | fuel + 1 =>
      match s with
      | [] => []
      | c :: cs =>
          let boundaryOk : Bool :=
            match prev with
            | none => true
            | some p => !isWordChar p
          if boundaryOk then
            match tryPhone s with
            | some (m, rest) =>
                m :: phoneFindAux fuel (some (m.getLastD c)) rest
            | none => phoneFindAux fuel (some c) cs
          else phoneFindAux fuel (some c) cs

/-- All matches of the phone pattern in `text`, in scan order. -/
def phoneFindAll (text : Str) : List Str :=
  phoneFindAux (text.length + 1) none text

/-- `PIIProtectionService` match record (`PIIMatch`). -/
structure PIIMatch where
  original : Str
  masked : Str
  pii_type : Str
  purpose : Option Str
deriving DecidableEq

/-- The mask literal `***-***-****`. -/
def phoneMask : Str := "***-***-****".data

/-- `PIIProtectionService.purpose_keywords`, in dict insertion order. -/
def purposeKeywords : List (Str × List Str) :=
  [ ("urgent".data, ["urgent".data, "emergency".data, "alert".data, "critical".data])
  , ("contact".data, ["contact".data, "call".data, "reach".data, "notify".data])
  , ("reminder".data, ["reminder".data, "remind".data, "notify".data]) ]

/-- `PIIProtectionService._extract_purpose`. -/
def extract_purpose (text : Str) : Option Str :=
  let lower := lowerStr text
  (purposeKeywords.find? (fun pk => pk.2.any (fun kw => containsSub lower kw))).map
    (fun pk => pk.1)

/-- `PIIProtectionService.detect_pii`: one `PIIMatch` per phone match, all
tagged with the purpose extracted from the whole text. -/
def detect_pii (text : Str) : List PIIMatch :=
  (phoneFindAll text).map (fun phone =>
    { original := phone, masked := phoneMask, pii_type := "phone".data
      purpose := extract_purpose text })

/-- `PIIProtectionService.mask_pii`: replace each match's original text by the
mask, one `str.replace` per match. -/
def mask_pii (text : Str) : List PIIMatch → Str
  | [] => text
  | m :: ms => mask_pii (pyReplace text m.original m.masked) ms

/-- Comma-join used for the purpose suffix. -/
def joinComma : List Str → Str
  | [] => []
  | [x] => x
  | x :: xs => x ++ ", ".data ++ joinComma xs

/-- `PIIProtectionService.create_masked_memory_text`.  Python iterates
`set(purposes)` whose order is unspecified; all purposes of one text are equal,
so the deduplicated list is a singleton and the model joins `eraseDups`. -/
def create_masked_memory_text (original_text : Str) (piiMatches : List PIIMatch) : Str :=
  if piiMatches = [] then original_text
  else
    let masked := mask_pii original_text piiMatches
    let purposes := piiMatches.filterMap (fun m => m.purpose)
    if purposes ≠ [] then
      masked ++ " (for ".data ++ joinComma purposes.eraseDups ++ ")".data
    else masked

/-- The masked form of a message, as the pipeline computes it in step 1.5. -/
def maskMessage (text : Str) : Str := mask_pii text (detect_pii text)

end OMem

namespace OMem

/-! ## Data model (`app/models`) and database state

Rows mirror the SQLModel classes.  UUIDs are modelled as `Nat` (sessions) and
`Str` (domain ids), timestamps as rationals measured in days, floats as `ℚ`
except embeddings which are `List ℝ`.  Note that `Memory` has no
`external_ref` field — the model (and the `app.memories` table of migration
002) does not declare one, which is what breaks the alias-mapping service. -/

/-- `app.models.memory.Memory` (table `app.memories`). -/
structure Memory where
  memory_id : Nat
  session_id : Nat
  kind : Str
  text : Str
  embedding : Option (List ℝ)
  importance : ℚ
  ttl_days : Option Int
  created_at : ℚ

/-- `app.models.memory.ChatEvent` (table `app.chat_events`). -/
structure ChatEvent where
  event_id : Nat
  session_id : Nat
  role : Str
  content : Str
  created_at : ℚ

/-- The `external_ref` dict of an `Entity`, restricted to the keys the
services read and write (`table`, `id`, `confidence`). -/
structure ExternalRef where
  table : Option Str
  id : Option Str
  confidence : Option Str
deriving DecidableEq

/-- `app.models.memory.Entity`.  The row id is never read by the services, so
it is omitted; `session_id` and `source` are optional because the exact-match
branch of `extract_entities` constructs entities without them. -/
structure Entity where
  session_id : Option Nat
  name : Str
  type : Str
  source : Option Str
  external_ref : Option ExternalRef
deriving DecidableEq

/-- `app.models.memory.MemorySummary` (table `app.memory_summaries`). -/
structure MemorySummary where
  summary_id : Nat
  user_id : Str
  session_window : Int
  summary : Str
  embedding : Option (List ℝ)
  created_at : ℚ

/-- `app.models.domain.Customer`. -/
structure Customer where
  customer_id : Str
  name : Str
  industry : Option Str
  notes : Option Str
deriving DecidableEq

/-- `app.models.domain.SalesOrder`. -/
structure SalesOrder where
  so_id : Str
  customer_id : Str
  so_number : Str
  title : Str
  status : Str
  created_at : ℚ
deriving DecidableEq

/-- `app.models.domain.WorkOrder`. -/
structure WorkOrder where
  wo_id : Str
  so_id : Str
  description : Option Str
  status : Str
  technician : Option Str
  scheduled_for : Option ℚ
deriving DecidableEq

/-- `app.models.domain.Invoice`. -/
structure Invoice where
  invoice_id : Str
  so_id : Str
  invoice_number : Str
  amount : ℚ
  due_date : ℚ
  status : Str
  issued_at : ℚ
deriving DecidableEq

/-- `app.models.domain.Payment`. -/
structure Payment where
  payment_id : Str
  invoice_id : Str
  amount : ℚ
  method : Option Str
  paid_at : ℚ
deriving DecidableEq

/-- `app.models.domain.Task`. -/
structure Task where
  task_id : Str
  customer_id : Option Str
  title : Str
  body : Option Str
  status : Str
  created_at : ℚ
deriving DecidableEq

/-- The persistent state seen through the SQLModel session: all tables, the
autoincrement counters, and the current wall-clock time `now` (in days; each
row created during a request gets `created_at = now`). -/
structure DB where
  customers : List Customer
  salesOrders : List SalesOrder
  invoices : List Invoice
  workOrders : List WorkOrder
  tasks : List Task
  payments : List Payment
  chatEvents : List ChatEvent
  entities : List Entity
  memories : List Memory
  summaries : List MemorySummary
  nextMemoryId : Nat
  nextEventId : Nat
  nextSummaryId : Nat
  now : ℚ

/-- A database with empty tables, used for concrete scenarios. -/
def emptyDB : DB :=
  { customers := [], salesOrders := [], invoices := [], workOrders := []
    tasks := [], payments := [], chatEvents := [], entities := []
    memories := [], summaries := [], nextMemoryId := 1, nextEventId := 1
    nextSummaryId := 1, now := 1000 }

/-! ## `MemoryService` (`memory_service.py`) -/

/-- Python `str.strip()`. -/
def pyStrip (s : Str) : Str :=
  ((s.dropWhile Char.isWhitespace).reverse.dropWhile Char.isWhitespace).reverse

/-- `MemoryService._is_similar_memory`: exact lowered match, containment for
strings longer than 20 characters, or word-set Jaccard similarity above 0.8. -/
def is_similar_memory (text1 text2 : Str) : Bool :=
  let t1 := pyStrip (lowerStr text1)
  let t2 := pyStrip (lowerStr text2)
  if t1 = t2 then true
  else if (if 20 < t1.length ∧ 20 < t2.length then
            containsSub t2 t1 || containsSub t1 t2 else false) then true
  else
    let words1 := pySplit t1
    let words2 := pySplit t2
    if 0 < setSize words1 ∧ 0 < setSize words2 then
      let overlap : ℚ := (setInter words1 words2).length
      let total : ℚ := setUnionSize words1 words2
      decide ((if total > 0 then overlap / total else 0) > 8/10)
    else false

/-- Insert a fresh memory row (the final branch of `create_memory`). -/
def insertMemory (sid : Nat) (kind text : Str) (embedding : Option (List ℝ))
    (importance : ℚ) (ttl_days : Option Int) (db : DB) : Memory × DB :=
  let m : Memory :=
    { memory_id := db.nextMemoryId, session_id := sid, kind := kind, text := text
      embedding := embedding, importance := importance, ttl_days := ttl_days
      created_at := db.now }
  (m, { db with memories := db.memories ++ [m], nextMemoryId := db.nextMemoryId + 1 })

/-- Raise the importance of the stored row `ex` to `importance` when the new
value is strictly higher (the dedup-hit path of `create_memory`). -/
def bumpImportance (ex : Memory) (importance : ℚ) (db : DB) : Memory × DB :=
  if importance > ex.importance then
    let mems := db.memories.map
      (fun m => if m.memory_id = ex.memory_id then { m with importance := importance } else m)
    ({ ex with importance := importance }, { db with memories := mems })
  else (ex, db)

/-- `MemoryService.create_memory`: mask PII if matches were passed, dedup on
exact text within the session, dedup semantic memories globally by similarity,
otherwise insert a new row. -/
def create_memory (sid : Nat) (kind text0 : Str) (embedding : Option (List ℝ))
    (importance : ℚ) (ttl_days : Option Int) (pii : List PIIMatch) (db : DB) :
    Memory × DB :=
  let text := if pii ≠ [] then create_masked_memory_text text0 pii else text0
  match db.memories.find? (fun m => m.text = text ∧ m.session_id = sid) with
  | some ex => bumpImportance ex importance db
  | none =>
      if kind = "semantic".data then
        let similar := db.memories.filter
          (fun m => m.kind = "semantic".data ∧ containsSub m.text (text.take 50))
        match similar.find? (fun m => is_similar_memory text m.text) with
        | some sim => bumpImportance sim importance db
        | none => insertMemory sid kind text embedding importance ttl_days db
      else insertMemory sid kind text embedding importance ttl_days db

/-- `MemoryService._calculate_recency_weight`: `(now - created_at).days` is
the floor of the age in days; the weight decays linearly over a year with a
floor of 0.1. -/
def calculate_recency_weight (now created_at : ℚ) : ℚ :=
  let days_old : Int := ⌊now - created_at⌋
  max (1/10) (1 - (days_old : ℚ) / 365)

open Classical in
/-- `MemoryService._cosine_similarity`. -/
noncomputable def cosine_similarity (a b : List ℝ) : ℝ :=
  let dot := ((a.zip b).map (fun p => p.1 * p.2)).foldr (· + ·) 0
  let ma := Real.sqrt ((a.map (fun x => x * x)).foldr (· + ·) 0)
  let mb := Real.sqrt ((b.map (fun x => x * x)).foldr (· + ·) 0)
  if ma = 0 ∨ mb = 0 then 0 else dot / (ma * mb)

/-- The final retrieval score of a memory with embedding `emb`:
cosine similarity times importance times recency weight (inline in
`retrieve_memories`). -/
noncomputable def memory_score (query emb : List ℝ) (importance : ℚ)
    (now created_at : ℚ) : ℝ :=
  cosine_similarity query emb * (importance : ℝ)
    * ((calculate_recency_weight now created_at : ℚ) : ℝ)

/-- `app.models.chat.MemoryRetrievalResult`. -/
structure MemoryRetrievalResult where
  memory_id : Nat
  text : Str
  kind : Str
  similarity : ℝ
  importance : ℚ
  created_at : ℚ

open Classical in
/-- `MemoryService.retrieve_memories`.  The session filter is commented out in
the source ("允许跨会话检索"), TTL filtering is skipped ("we'll skip TTL
filtering"), and `user_id` is never consulted, so only the optional kind
filter restricts the candidate set; candidates with an embedding are scored
and the top `lim` by score are returned (stable descending sort). -/
noncomputable def retrieve_memories (query_embedding : List ℝ) (user_id : Str)
    (session_id : Option Nat) (kind : Option Str) (lim : Nat) (db : DB) :
    List MemoryRetrievalResult :=
  let rows : List Memory :=
    match kind with
    | some k => db.memories.filter (fun m => m.kind = k)
    | none => db.memories
  let results : List MemoryRetrievalResult := rows.filterMap (fun m =>
    match m.embedding with
    | some emb =>
        if 0 < emb.length then
          some { memory_id := m.memory_id, text := m.text, kind := m.kind
                 similarity := memory_score query_embedding emb m.importance db.now m.created_at
                 importance := m.importance, created_at := m.created_at }
        else none
    | none => none)
  let sorted := results.insertionSort (fun x y => y.similarity ≤ x.similarity)
  sorted.take lim

end OMem

namespace OMem

/-! ## Consolidation (`MemoryService.consolidate_memories` and helpers) -/

/-- Python `str.split(sep)` for a non-empty separator (non-overlapping,
left-to-right).  Fuel `s.length + 1` is exact. -/
def pySplitSubAux (fuel : Nat) (sep cur s : Str) : List Str :=
  match fuel with
  | 0 => [cur.reverse ++ s]
  | fuel + 1 =>
      match s with
      | [] => [cur.reverse]
      | c :: cs =>
          if startsWith sep s ∧ sep ≠ [] then
            cur.reverse :: pySplitSubAux fuel sep [] (s.drop sep.length)
          else pySplitSubAux fuel sep (c :: cur) cs

/-- Python `str.split(sep)`. -/
def pySplitSub (s sep : Str) : List Str := pySplitSubAux (s.length + 1) sep [] s

/-- ASCII uppercase conversion (for `str.title()`). -/
def upperChar (c : Char) : Char :=
  if 'a' ≤ c ∧ c ≤ 'z' then Char.ofNat (c.toNat - 32) else c

/-- An ASCII letter. -/
def isAsciiLetter (c : Char) : Bool :=
  ('a' ≤ c ∧ c ≤ 'z') ∨ ('A' ≤ c ∧ c ≤ 'Z')

/-- Python `str.title()` on ASCII text: the first letter of every alphabetic
run is uppercased, the rest lowercased. -/
def pyTitleAux (prevAlpha : Bool) (s : Str) : Str :=
  match s with
  | [] => []
  | c :: cs =>
      (if isAsciiLetter c then (if prevAlpha then lowerChar c else upperChar c) else c)
        :: pyTitleAux (isAsciiLetter c) cs

/-- Python `str.title()`. -/
def pyTitle (s : Str) : Str := pyTitleAux false s

/-- Decimal rendering of a natural number (Python f-string interpolation). -/
def natToStr (n : Nat) : Str := (Nat.repr n).data

/-- Join a list of strings with a separator (Python `sep.join`). -/
def joinSep (sep : Str) : List Str → Str
  | [] => []
  | [x] => x
  | x :: xs => x ++ sep ++ joinSep sep xs

/-- `MemoryService._extract_customer_from_memory`: the hard-coded customer
list (with its duplicates) scanned in order, then normalised. -/
def knownCustomers : List Str :=
  [ "kai media".data, "tc boiler".data, "john gai media".data
  , "kai media".data, "tc boiler".data, "john gai media".data
  , "kai".data, "tc".data, "john".data ]

/-- `MemoryService._extract_customer_from_memory`. -/
def extract_customer_from_memory (m : Memory) : Option Str :=
  let tl := lowerStr m.text
  match knownCustomers.find? (fun c => containsSub tl c) with
  | none => none
  | some c =>
      if c = "kai".data ∨ c = "kai media".data then some ("kai media".data)
      else if c = "tc".data ∨ c = "tc boiler".data then some ("tc boiler".data)
      else if c = "john".data ∨ c = "john gai media".data then some ("john gai media".data)
      else some c

/-- `MemoryService._is_stale_preference`: a semantic preference older than 90
days or with importance below 0.7. -/
def is_stale_preference (now : ℚ) (m : Memory) : Bool :=
  if m.kind ≠ "semantic".data then false
  else
    let tl := lowerStr m.text
    let isPreference := ["prefer".data, "like".data, "delivery".data, "payment".data,
      "terms".data, "remember".data].any (fun k => containsSub tl k)
    isPreference ∧ (90 < ⌊now - m.created_at⌋ ∨ m.importance < 7/10)

/-- `MemoryService._has_sufficient_customer_context`: at least three memories
in the last 30 days mentioning the same recognised customer (SQL `contains`
is case-sensitive, so the lowercase customer string is matched verbatim). -/
def has_sufficient_customer_context (db : DB) (m : Memory) : Bool :=
  match extract_customer_from_memory m with
  | none => false
  | some c =>
      3 ≤ (db.memories.filter
        (fun x => db.now - 30 ≤ x.created_at ∧ containsSub x.text c)).length

/-- `MemoryService._is_task_completion`. -/
def is_task_completion (m : Memory) : Bool :=
  let tl := lowerStr m.text
  ["completed".data, "done".data, "finished".data, "resolved".data, "closed".data,
    "marked as done".data].any (fun k => containsSub tl k)

/-- `MemoryService._should_trigger_consolidation`: memories from the last 30
days trigger on a hard-coded customer keyword, a stale preference, sufficient
customer context, or a task completion.  `user_id` is accepted but never used
by the source. -/
def should_trigger_consolidation (user_id : Str) (db : DB) : Bool :=
  let recent := db.memories.filter (fun m => db.now - 30 ≤ m.created_at)
  if recent.isEmpty then false
  else
    let kws := ["tc boiler".data, "kai media".data, "net15".data, "payment plan".data,
      "rush work order".data]
    recent.any (fun m => kws.any (fun k => containsSub (lowerStr m.text) k))
    || recent.any (fun m =>
        is_stale_preference db.now m || has_sufficient_customer_context db m
          || is_task_completion m)

/-- The `Terms` bucket loop of `_extract_customer_key_info`: `NET15` stops the
scan, other `net` terms accumulate. -/
def termsLoop : List Str → List Str
  | [] => []
  | t :: ts =>
      if containsSub (lowerStr t) ("net15".data) then ["Terms: NET15".data]
      else if containsSub (lowerStr t) ("net".data) then
        ("Terms: ".data ++ t) :: termsLoop ts
      else termsLoop ts

/-- The `Orders` bucket loop of `_extract_customer_key_info`. -/
def ordersLoop : List Str → List Str
  | [] => []
  | t :: ts =>
      if containsSub (lowerStr t) ("so-2002".data) then ["Orders: Rush WO for SO-2002".data]
      else if containsSub (lowerStr t) ("so-".data) then
        ("Orders: ".data ++ t) :: ordersLoop ts
      else ordersLoop ts

/-- The `Payments` bucket loop of `_extract_customer_key_info`. -/
def paymentsLoop : List Str → List Str
  | [] => []
  | t :: ts =>
      if containsSub (lowerStr t) ("500".data) then ["Payments: $500/month plan".data]
      else if containsSub (lowerStr t) ("payment plan".data) then
        ("Payments: ".data ++ t) :: paymentsLoop ts
      else paymentsLoop ts

/-- The `Preferences` bucket loop of `_extract_customer_key_info`; both hits
stop the scan. -/
def prefsLoop : List Str → List Str
  | [] => []
  | t :: ts =>
      if containsSub (lowerStr t) ("ach".data) then ["Preferences: ACH payments".data]
      else if containsSub (lowerStr t) ("friday".data) then ["Preferences: Friday delivery".data]
      else prefsLoop ts

/-- `MemoryService._extract_customer_key_info`: bucket the customer's
memories into terms / orders / payments / preferences and format them. -/
def extract_customer_key_info (customer : Str) (mems : List Memory) : Str :=
  let texts := mems.map (fun m => m.text)
  let terms := texts.filter (fun t => ["net".data, "terms".data, "payment".data,
    "agreed".data].any (fun k => containsSub (lowerStr t) k))
  let orders := texts.filter (fun t => ["so-".data, "work order".data, "wo-".data,
    "rush".data].any (fun k => containsSub (lowerStr t) k))
  let payments := texts.filter (fun t => ["payment plan".data, "monthly".data, "$".data,
    "pay".data, "500".data].any (fun k => containsSub (lowerStr t) k))
  let preferences := texts.filter (fun t => ["prefer".data, "like".data, "delivery".data,
    "friday".data, "thursday".data, "ach".data].any (fun k => containsSub (lowerStr t) k))
  let info := termsLoop terms ++ ordersLoop orders ++ paymentsLoop payments
    ++ prefsLoop preferences
  joinSep ("; ".data) info

/-- Group memories by recognised customer, preserving first-seen order
(Python dict insertion order). -/
def addToGroups (groups : List (Str × List Memory)) (c : Str) (m : Memory) :
    List (Str × List Memory) :=
  match groups with
  | [] => [(c, [m])]
  | (k, ms) :: rest =>
      if k = c then (k, ms ++ [m]) :: rest else (k, ms) :: addToGroups rest c m

/-- The `customer_groups` dict of `_generate_smart_summary`. -/
def customerGroups (mems : List Memory) : List (Str × List Memory) :=
  mems.foldl (fun gs m =>
    match extract_customer_from_memory m with
    | some c => addToGroups gs c m
    | none => gs) []

/-- `MemoryService._generate_smart_summary`. -/
def generate_smart_summary (user_id : Str) (mems : List Memory) : Str :=
  let groups := customerGroups mems
  let generic := "Memory consolidation for user ".data ++ user_id ++ ": ".data
    ++ natToStr mems.length ++ " memories processed".data
  if groups.isEmpty then generic
  else
    let parts := groups.filterMap (fun g =>
      let info := extract_customer_key_info g.1 g.2
      if info ≠ [] then some (pyTitle g.1 ++ ": ".data ++ info) else none)
    if parts ≠ [] then
      "Customer Summary (".data ++ natToStr groups.length ++ " customers): ".data
        ++ joinSep ("; ".data) parts
    else generic

/-- The preference-pattern words shared by `_process_episodic_memories`. -/
def patternWords : List Str :=
  ["prefers".data, "likes".data, "dislikes".data, "always".data, "never".data]

/-- `MemoryService._extract_semantic_from_episodic`: strip time words, then
format the text after the first preference keyword. -/
def extract_semantic_from_episodic (t0 : Str) : Option Str :=
  let timeWords := ["today".data, "yesterday".data, "just".data, "recently".data,
    "now".data, "sent".data, "drafted".data, "created".data]
  let t1 := timeWords.foldl (fun s w => pyReplace s w []) (lowerStr t0)
  let tryKw (kw lead : Str) : Option Str :=
    if containsSub t1 kw then
      let parts := pySplitSub t1 kw
      if 1 < parts.length then some (lead ++ pyStrip (parts.getD 1 [])) else none
    else none
  match tryKw ("prefers".data) ("Customer prefers ".data) with
  | some r => some r
  | none =>
      match tryKw ("likes".data) ("Customer likes ".data) with
      | some r => some r
      | none => tryKw ("dislikes".data) ("Customer dislikes ".data)

/-- `MemoryService._process_episodic_memories`: promote recurring episodic
preference patterns to permanent semantic memories (importance 0.9). -/
def process_episodic_memories (mems : List Memory) (db : DB) : DB :=
  let episodic := mems.filter (fun m => m.kind = "episodic".data)
  episodic.foldl (fun db m =>
    if patternWords.any (fun w => containsSub (lowerStr m.text) w) then
      let similar := episodic.filter (fun x =>
        x.memory_id ≠ m.memory_id
          ∧ patternWords.any (fun w => containsSub (lowerStr x.text) w))
      if 1 ≤ similar.length then
        match extract_semantic_from_episodic m.text with
        | some st => (create_memory m.session_id ("semantic".data) st none (9/10) none [] db).2
        | none => db
      else db
    else db) db

/-- `MemoryService.consolidate_memories`: returns `none` (Python `None`) when
no trigger condition is met or no memory is recent, else promotes episodic
patterns and upserts the `(user_id, session_window)` summary row. -/
def consolidate_memories (user_id : Str) (session_window : Int) (force : Bool)
    (db : DB) : Option MemorySummary × DB :=
  if ¬force ∧ ¬should_trigger_consolidation user_id db then (none, db)
  else
    let mems := db.memories.filter (fun m => db.now - 30 ≤ m.created_at)
    if mems.isEmpty then (none, db)
    else
      let db2 := process_episodic_memories mems db
      let summary_text := generate_smart_summary user_id mems
      match db2.summaries.find? (fun s =>
          s.user_id = user_id ∧ s.session_window = session_window) with
      | some ex =>
          let ex2 := { ex with summary := summary_text, created_at := db2.now }
          let sums := db2.summaries.map (fun s => if s.summary_id = ex.summary_id then ex2 else s)
          (some ex2, { db2 with summaries := sums })
      | none =>
          let s : MemorySummary :=
            { summary_id := db2.nextSummaryId, user_id := user_id
              session_window := session_window, summary := summary_text
              embedding := none, created_at := db2.now }
          let db3 := { db2 with summaries := db2.summaries ++ [s] }
          (some s, { db3 with nextSummaryId := db3.nextSummaryId + 1 })

/-- Result of the `POST /consolidate/` route. -/
inductive ConsolidateHttp where
  | ok (summary_id : Nat) (message : Str)
  | err (status : Nat) (detail : Str)
deriving DecidableEq

/-- `app.api.routes.consolidate.consolidate_memories` (the route handler).
When the service returns `None` the handler raises `HTTPException(404)` —
but the raise sits inside the `try` block whose `except Exception` clause
catches it (FastAPI's `HTTPException` subclasses `Exception`) and re-raises
it as a 500 with the stringified original exception in the detail, so the
observable response for "no memories to consolidate" is a 500, never a 404. -/
def consolidate_route (user_id : Str) (db : DB) : ConsolidateHttp × DB :=
  let r := consolidate_memories user_id 3 false db
  match r.1 with
  | none =>
      (.err 500 ("Internal server error: 404: No memories found to consolidate".data), r.2)
  | some s =>
      (.ok s.summary_id ("Successfully consolidated memories for user ".data ++ user_id), r.2)

end OMem

namespace OMem

/-! ## `AliasMappingService` (`alias_mapping_service.py`)

`store_alias_mapping` constructs `Memory(...)` WITHOUT the required
`session_id` (the model declares `session_id: UUID`, and `app.memories` has
`session_id ... NOT NULL`); SQLModel table models skip validation at
construction, so the failure surfaces at `commit()` as a NOT-NULL violation
inside the `try`, the `except Exception` handler rolls the session back and
the method returns `False` — no row is ever persisted.  (The `external_ref`
dict it also passes is likewise undeclared on the model.)  The lookup
methods build `select(Memory).where(Memory.external_ref[...] == ...)`,
which raises `AttributeError` on the undeclared class attribute; their
`except Exception` handlers swallow it and return the failure default.  The
embeddings below are the observable behaviour of that code. -/

/-- The sentence text `store_alias_mapping` attempts (and always fails) to
store. -/
def aliasMappingSentence (alias_text entity_name entity_id : Str) : Str :=
  "Alias mapping: '".data ++ alias_text ++ "' refers to '".data ++ entity_name
    ++ "' (ID: ".data ++ entity_id ++ ")".data

/-- `AliasMappingService.store_alias_mapping`: the `Memory` construction
omits the required `session_id`, so the INSERT violates the `NOT NULL`
constraint at `commit()`; the `except Exception` handler rolls back and the
method returns `False` — the store is unchanged and no alias row ever
persists. -/
def store_alias_mapping (embed : Str → List ℝ) (user_id alias_text entity_name entity_id : Str)
    (db : DB) : Bool × DB :=
  (false, db)

/-- The dict returned by `get_exact_match_entity` on a hit. -/
structure ExactMatch where
  name : Str
  id : Str
  confidence : Str
deriving DecidableEq

/-- `AliasMappingService.get_exact_match_entity`: the where-clause mentions
`Memory.external_ref`, an attribute the `Memory` model does not declare, so
building the query raises `AttributeError`; the `except` handler returns
`None`.  The function therefore never finds a match. -/
def get_exact_match_entity (user_id query_text : Str) (db : DB) : Option ExactMatch :=
  none

/-- `AliasMappingService.translate_to_english`: same failure as
`get_exact_match_entity`; the handler returns the input unchanged. -/
def translate_to_english (user_id foreign_text : Str) (db : DB) : Str :=
  foreign_text

/-! ## `EntityService` (`entity_service.py`) -/

/-- Case-insensitive literal match (the building block for the `IGNORECASE`
regexes): consumes `lit` (given lowercase) from `s`, returning the consumed
original characters and the rest. -/
def litCI (lit : Str) (s : Str) : Option (Str × Str) :=
  match lit, s with
  | [], _ => some ([], s)
  | _ :: _, [] => none
  | l :: ls, c :: cs =>
      if lowerChar c = l then (litCI ls cs).map (fun r => (c :: r.1, r.2)) else none

/-- `\s+`: one or more whitespace characters (greedy maximal run). -/
def wsPlus (s : Str) : Option (Str × Str) :=
  let run := s.takeWhile Char.isWhitespace
  if run.isEmpty then none else some (run, s.drop run.length)

/-- Sequence two piece parsers. -/
def pSeq (p q : Str → Option (Str × Str)) (s : Str) : Option (Str × Str) :=
  match p s with
  | none => none
  | some (a, r) =>
      match q r with
      | none => none
      | some (b, r2) => some (a ++ b, r2)

/-- Generic `re.findall` scanner: try a match at every position, skip one
character on failure, continue after the match on success. -/
def scanMatches (matchAt : Str → Option (Str × Str)) : Nat → Str → List Str
  | 0, _ => []
  | _, [] => []
  | fuel + 1, c :: cs =>
      match matchAt (c :: cs) with
      | some (m, rest) => m :: scanMatches matchAt fuel rest
      | none => scanMatches matchAt fuel cs

/-- `re.findall(pattern, text, re.IGNORECASE)` for the entity regexes. -/
def findAllCI (matchAt : Str → Option (Str × Str)) (text : Str) : List Str :=
  scanMatches matchAt (text.length + 1) text

/-- `SO-\d{4}` (case-insensitive). -/
def matchSO (s : Str) : Option (Str × Str) :=
  pSeq (litCI ("so-".data)) (fun r => parseDigits 4 r) s

/-- `INV-\d{4}` (case-insensitive). -/
def matchINV (s : Str) : Option (Str × Str) :=
  pSeq (litCI ("inv-".data)) (fun r => parseDigits 4 r) s

/-- `pick-pack\s+(?:work\s+)?order` (greedy optional group with fallback). -/
def matchWO1 (s : Str) : Option (Str × Str) :=
  pSeq (litCI ("pick-pack".data)) (fun r =>
    match wsPlus r with
    | none => none
    | some (w, r2) =>
        match pSeq (litCI ("work".data)) (pSeq wsPlus (litCI ("order".data))) r2 with
        | some (b, r3) => some (w ++ b, r3)
        | none =>
            match litCI ("order".data) r2 with
            | some (b, r3) => some (w ++ b, r3)
            | none => none) s

/-- `pick-pack\s+albums?`. -/
def matchWO2 (s : Str) : Option (Str × Str) :=
  pSeq (litCI ("pick-pack".data)) (pSeq wsPlus (fun r =>
    match litCI ("album".data) r with
    | none => none
    | some (a, r2) =>
        match litCI ("s".data) r2 with
        | some (b, r3) => some (a ++ b, r3)
        | none => some (a, r2))) s

/-- `work\s+order`. -/
def matchWO3 (s : Str) : Option (Str × Str) :=
  pSeq (litCI ("work".data)) (pSeq wsPlus (litCI ("order".data))) s

/-- `pick\s+pack`. -/
def matchWO4 (s : Str) : Option (Str × Str) :=
  pSeq (litCI ("pick".data)) (pSeq wsPlus (litCI ("pack".data))) s

/-- `album\s+fulfillment`. -/
def matchWO5 (s : Str) : Option (Str × Str) :=
  pSeq (litCI ("album".data)) (pSeq wsPlus (litCI ("fulfillment".data))) s

/-- Python `str.upper()` on ASCII. -/
def upperStr (s : Str) : Str := s.map upperChar

/-- `EntityService._fuzzy_match` (threshold 0.8): subset rule or word-overlap
ratio over the name's word set. -/
def fuzzy_match (name text : Str) : Bool :=
  let nameW := (pySplit (lowerStr name)).eraseDups
  let textW := (pySplit (lowerStr text)).eraseDups
  if nameW.isEmpty ∨ textW.isEmpty then false
  else
    let inter := nameW.filter (fun w => textW.contains w)
    if 0 < inter.length ∧ textW.all (fun w => containsSub (lowerStr name) w)
        ∧ 1 ≤ inter.length then true
    else decide ((inter.length : ℚ) / (nameW.length : ℚ) ≥ 8/10)

/-- Build a customer entity for `_extract_customer_entities`. -/
def mkCustomerEntity (sid : Nat) (c : Customer) (conf : Str) : Entity :=
  { session_id := some sid, name := c.name, type := "customer".data
    source := some ("db".data)
    external_ref := some { table := some ("domain.customers".data)
                           id := some c.customer_id, confidence := some conf } }

/-- `EntityService._extract_customer_entities`: hard-coded `kai`/`tc`
shortform branches, then substring (exact) or fuzzy matching of each customer
name against the message and its translation. -/
def extract_customer_entities (text : Str) (sid : Nat) (user_id : Str) (db : DB) :
    List Entity :=
  let english := translate_to_english user_id text db
  let tl := lowerStr text
  if containsSub tl ("kai".data) ∧ ¬ containsSub tl ("media".data) then
    (db.customers.filter (fun c => containsSub (lowerStr c.name) ("kai media".data))).map
      (fun c => mkCustomerEntity sid c ("fuzzy".data))
  else if containsSub tl ("tc".data) ∧ ¬ containsSub tl ("boiler".data) then
    (db.customers.filter (fun c => containsSub (lowerStr c.name) ("tc boiler".data))).map
      (fun c => mkCustomerEntity sid c ("fuzzy".data))
  else
    db.customers.filterMap (fun c =>
      let tryCheck (ct : Str) : Option Str :=
        if containsSub ct (lowerStr c.name) then some ("exact".data)
        else if fuzzy_match c.name ct then some ("fuzzy".data)
        else none
      match tryCheck tl with
      | some conf => some (mkCustomerEntity sid c conf)
      | none =>
          match tryCheck (lowerStr english) with
          | some conf => some (mkCustomerEntity sid c conf)
          | none => none)

/-- `EntityService._extract_order_entities`: `SO-\d{4}` matches confirmed
against `sales_orders.so_number` (uppercased). -/
def extract_order_entities (text : Str) (sid : Nat) (db : DB) : List Entity :=
  (findAllCI matchSO text).filterMap (fun m =>
    match db.salesOrders.find? (fun o => o.so_number = upperStr m) with
    | some o => some
        { session_id := some sid, name := m, type := "order".data
          source := some ("db".data)
          external_ref := some { table := some ("domain.sales_orders".data)
                                 id := some o.so_id, confidence := none } }
    | none => none)

/-- `EntityService._extract_invoice_entities`: `INV-\d{4}` matches confirmed
against `invoices.invoice_number` (uppercased). -/
def extract_invoice_entities (text : Str) (sid : Nat) (db : DB) : List Entity :=
  (findAllCI matchINV text).filterMap (fun m =>
    match db.invoices.find? (fun i => i.invoice_number = upperStr m) with
    | some i => some
        { session_id := some sid, name := m, type := "invoice".data
          source := some ("db".data)
          external_ref := some { table := some ("domain.invoices".data)
                                 id := some i.invoice_id, confidence := none } }
    | none => none)

/-- `EntityService._extract_task_entities`: each task keyword present in the
message matches every task whose title or body contains it. -/
def extract_task_entities (text : Str) (sid : Nat) (db : DB) : List Entity :=
  let kws := ["task".data, "todo".data, "issue".data, "problem".data, "support".data]
  kws.flatMap (fun kw =>
    if containsSub (lowerStr text) (lowerStr kw) then
      db.tasks.filterMap (fun t =>
        if containsSub (lowerStr t.title) (lowerStr kw)
            || containsSub (lowerStr (t.body.getD [])) (lowerStr kw) then
          some { session_id := some sid, name := t.title, type := "task".data
                 source := some ("db".data)
                 external_ref := some { table := some ("domain.tasks".data)
                                        id := some t.task_id, confidence := none } }
        else none)
    else [])

/-- `EntityService._extract_work_order_entities`: the whitelisted descriptive
patterns, each match confirmed by a case-insensitive `contains` lookup in
`work_orders.description`. -/
def extract_work_order_entities (text : Str) (sid : Nat) (db : DB) : List Entity :=
  [matchWO1, matchWO2, matchWO3, matchWO4, matchWO5].flatMap (fun pat =>
    (findAllCI pat text).filterMap (fun m =>
      match db.workOrders.find? (fun w =>
          containsSub (lowerStr (w.description.getD [])) (lowerStr m)) with
      | some w => some
          { session_id := some sid, name := m, type := "work_order".data
            source := some ("db".data)
            external_ref := some { table := some ("domain.work_orders".data)
                                   id := some w.wo_id, confidence := none } }
      | none => none))

/-- `EntityService.extract_entities`: exact-match alias first (which never
fires, see `get_exact_match_entity`), then customers, orders, invoices,
tasks and work orders. -/
def extract_entities (text : Str) (sid : Nat) (user_id : Str) (db : DB) : List Entity :=
  match get_exact_match_entity user_id text db with
  | some em =>
      [ { session_id := none, name := em.name, type := "customer".data
          source := none
          external_ref := some { table := some ("domain.customers".data)
                                 id := some em.id, confidence := some ("exact".data) } } ]
  | none =>
      extract_customer_entities text sid user_id db
        ++ extract_order_entities text sid db
        ++ extract_invoice_entities text sid db
        ++ extract_task_entities text sid db
        ++ extract_work_order_entities text sid db

/-- `EntityService._link_customer_entity` and friends: overwrite the
`external_ref` with `{table, id}` (dropping any confidence) when the named
row exists. -/
def link_entity (db : DB) (e : Entity) : Entity :=
  if e.type = "customer".data then
    match db.customers.find? (fun c => c.name = e.name) with
    | some c =>
        { e with external_ref := some ⟨some ("domain.customers".data), some c.customer_id, none⟩,
                 source := some ("db".data) }
    | none => e
  else if e.type = "order".data then
    match db.salesOrders.find? (fun o => o.so_number = e.name) with
    | some o =>
        { e with external_ref := some ⟨some ("domain.sales_orders".data), some o.so_id, none⟩,
                 source := some ("db".data) }
    | none => e
  else if e.type = "invoice".data then
    match db.invoices.find? (fun i => i.invoice_number = e.name) with
    | some i =>
        { e with external_ref := some ⟨some ("domain.invoices".data), some i.invoice_id, none⟩,
                 source := some ("db".data) }
    | none => e
  else if e.type = "task".data then
    match db.tasks.find? (fun t => t.title = e.name) with
    | some t =>
        { e with external_ref := some ⟨some ("domain.tasks".data), some t.task_id, none⟩,
                 source := some ("db".data) }
    | none => e
  else e

/-- `EntityService.link_entities_to_domain`. -/
def link_entities_to_domain (db : DB) (entities : List Entity) : List Entity :=
  entities.map (link_entity db)

end OMem

namespace OMem

/-! ## `DisambiguationService` (`disambiguation_service.py`) -/

/-- `app.models.chat.ChatMessage`. -/
structure ChatMessage where
  role : Str
  content : Str
  timestamp : ℚ
deriving DecidableEq

/-- `DisambiguationResult`. -/
structure DisambiguationResult where
  needed : Bool
  selected : Option Entity
  candidates : Option (List Entity)
  scores : Option (List ℚ)
deriving DecidableEq

/-- The clarification-marker phrases of `_is_clarification_response`. -/
def clarificationKeywords : List Str :=
  [ "clarify".data, "which one".data, "multiple matches".data, "please choose".data
  , "found multiple possible".data, "please respond with the number".data ]

/-- `DisambiguationService._is_clarification_response`: at least two messages
and the most recent assistant message contains a clarification marker. -/
def is_clarification_response (history : List ChatMessage) : Bool :=
  if history.length < 2 then false
  else
    match history.reverse.find? (fun m => m.role = "assistant".data) with
    | none => false
    | some m => clarificationKeywords.any (fun k => containsSub (lowerStr m.content) k)

/-- `DisambiguationService._calculate_entity_score`:
`external_ref.get('confidence', 'exact')` — a missing confidence key (and a
missing dict, which the services never produce) defaults to `exact`. -/
def calculate_entity_score (e : Entity) : ℚ :=
  let conf :=
    match e.external_ref with
    | some r => r.confidence.getD ("exact".data)
    | none => "exact".data
  if conf = "exact".data then 1
  else if conf = "fuzzy".data then 8/10
  else 1/2

/-- Python `max(l)` (the sources only call it on non-empty lists). -/
def pyMax (l : List ℚ) : ℚ :=
  match l with
  | [] => 0
  | h :: t => t.foldl max h

/-- Python `sorted(l, reverse=True)` (stable descending). -/
def pySortDesc (l : List ℚ) : List ℚ :=
  l.insertionSort (fun a b => b ≤ a)

/-- Python `l.index(v)`: index of the first occurrence (the sources only call
it when `v ∈ l`). -/
def pyIndex (l : List ℚ) (v : ℚ) : Nat :=
  match l with
  | [] => 0
  | h :: t => if h = v then 0 else pyIndex t v + 1

/-- Out-of-range default for `entities[i]` (never reached on source paths). -/
def defaultEntity : Entity :=
  { session_id := none, name := [], type := [], source := none, external_ref := none }

/-- `DisambiguationService._parse_user_selection`: 1-based ordinal, then
substring name match, then ≥50% word overlap, defaulting to the first
candidate.  On an EMPTY candidate list every scan fails vacuously and the
source evaluates `candidates[0]`, raising an `IndexError` that no caller
catches; `none` models that raise (on every non-empty list the function
returns `some`).  The pipeline path that reaches the raise aborts without
persisting anything — see `process_run`. -/
def parse_user_selection (user_response : Str) (candidates : List Entity) :
    Option Entity :=
  let rl := lowerStr user_response
  match (List.range candidates.length).findSome? (fun i =>
      if containsSub rl (natToStr (i + 1)) then candidates.get? i else none) with
  | some e => some e
  | none =>
      match candidates.find? (fun e => containsSub rl (lowerStr e.name)) with
      | some e => some e
      | none =>
          match candidates.find? (fun e =>
              let ew := pySplit (lowerStr e.name)
              let rw := pySplit rl
              let hits := (ew.filter (fun w => rw.contains w)).length
              decide ((hits : ℚ) ≥ (ew.length : ℚ) * (1/2))) with
          | some e => some e
          | none => candidates.head?

/-- `DisambiguationService._create_exact_match_alias`: store the raw reply as
a user alias for the selected entity (`external_ref.get("id", "")`). -/
def create_exact_match_alias (embed : Str → List ℝ) (user_input : Str)
    (selected : Entity) (user_id : Str) (db : DB) : DB :=
  let eid :=
    match selected.external_ref with
    | some r => r.id.getD []
    | none => []
  (store_alias_mapping embed user_id user_input selected.name eid db).2

/-- `DisambiguationService._process_clarification_from_history`.  In the
source `_parse_user_selection` either returns an entity (always truthy) or
raises, so the `else:` re-ask arm is dead code; the `none` arm below is this
total rendering of the raise, and `process_run` is where the actual abort
of the pipeline on that path is modelled. -/
def process_clarification_from_history (embed : Str → List ℝ) (user_message : Str)
    (entities : List Entity) (user_id : Str) (db : DB) :
    DisambiguationResult × DB :=
  match parse_user_selection user_message entities with
  | some sel =>
      ({ needed := false, selected := some sel, candidates := none, scores := none },
       create_exact_match_alias embed user_message sel user_id db)
  | none =>
      ({ needed := true, selected := none, candidates := some entities,
         scores := some (entities.map calculate_entity_score) }, db)

/-- `DisambiguationService.process_clarification` (public method): parse the
user's clarification reply, store the alias, return the chosen entity. -/
def process_clarification (embed : Str → List ℝ) (user_response : Str)
    (candidates : List Entity) (user_id : Str) (db : DB) :
    Option Entity × DB :=
  match parse_user_selection user_response candidates with
  | some sel => (some sel, create_exact_match_alias embed user_response sel user_id db)
  | none => (none, db)

/-- `DisambiguationService.decide_disambiguation`: clarification replies are
handled first; otherwise 0 candidates → nothing selected, 1 candidate →
selected, and for 2 or more the confidence scores decide — auto-select the
first maximal scorer when `top1 - top2 > 0.05`, else request clarification. -/
def decide_disambiguation (embed : Str → List ℝ) (entities : List Entity)
    (history : List ChatMessage) (user_message : Str) (user_id : Str) (db : DB) :
    DisambiguationResult × DB :=
  if ¬history.isEmpty ∧ is_clarification_response history then
    process_clarification_from_history embed user_message entities user_id db
  else
    match entities with
    | [] => ({ needed := false, selected := none, candidates := none, scores := none }, db)
    | [e] => ({ needed := false, selected := some e, candidates := none, scores := none }, db)
    | _ :: _ :: _ =>
        let scores := entities.map calculate_entity_score
        let max_score := pyMax scores
        let second_max := if 1 < scores.length then (pySortDesc scores).getD 1 0 else 0
        if max_score - second_max > 1/20 then
          ({ needed := false,
             selected := some (entities.getD (pyIndex scores max_score) defaultEntity),
             candidates := none, scores := none }, db)
        else
          ({ needed := true, selected := none, candidates := some entities,
             scores := some scores }, db)

end OMem

namespace OMem

/-! ## `RetrievalService` (`retrieval_service.py`) -/

/-- JSON-like values for the `data` dicts of domain facts. -/
inductive Val where
  | s (v : Str)
  | q (v : ℚ)
  | b (v : Bool)
  | nil
  | arr (vs : List Val)
  | obj (fields : List (Str × Val))

/-- Dict lookup (`data.get(key)`). -/
def dGet (d : List (Str × Val)) (k : Str) : Option Val :=
  (d.find? (fun p => p.1 = k)).map (fun p => p.2)

/-- `data.get(key, "")` for string-valued keys. -/
def getStrD (d : List (Str × Val)) (k : Str) : Str :=
  match dGet d k with
  | some (.s v) => v
  | _ => []

/-- An optional string as a JSON value (Python `None` → null). -/
def optV (o : Option Str) : Val :=
  match o with
  | some v => .s v
  | none => .nil

/-- An optional timestamp as a JSON value (`isoformat()` strings are
represented by the underlying timestamp number). -/
def optQ (o : Option ℚ) : Val :=
  match o with
  | some v => .q v
  | none => .nil

/-- `app.models.chat.DomainFact`. -/
structure DomainFact where
  table : Str
  id : Str
  data : List (Str × Val)
  relevance_score : ℚ

/-- `RetrievalService._get_customer_facts`: the customer row (1.0), its sales
orders (0.8) and its open invoices (0.9). -/
def get_customer_facts (customer_id : Str) (db : DB) : List DomainFact :=
  match db.customers.find? (fun c => c.customer_id = customer_id) with
  | none => []
  | some c =>
      let base : DomainFact :=
        { table := "customers".data, id := c.customer_id
          data := [("name".data, .s c.name), ("industry".data, optV c.industry),
                   ("notes".data, optV c.notes)]
          relevance_score := 1 }
      let soFacts := (db.salesOrders.filter (fun o => o.customer_id = customer_id)).map
        (fun o => ({ table := "sales_orders".data, id := o.so_id
                     data := [("so_number".data, .s o.so_number), ("title".data, .s o.title),
                              ("status".data, .s o.status), ("created_at".data, .q o.created_at)]
                     relevance_score := 8/10 } : DomainFact))
      let invFacts := (db.invoices.filter (fun i =>
          i.status = "open".data ∧ db.salesOrders.any (fun o =>
            o.so_id = i.so_id ∧ o.customer_id = customer_id))).map
        (fun i => ({ table := "invoices".data, id := i.invoice_id
                     data := [("invoice_number".data, .s i.invoice_number),
                              ("amount".data, .q i.amount), ("due_date".data, .q i.due_date),
                              ("status".data, .s i.status)]
                     relevance_score := 9/10 } : DomainFact))
      base :: (soFacts ++ invFacts)

/-- `RetrievalService._get_sales_order_facts`: the order row (1.0) and its
work orders (0.8). -/
def get_sales_order_facts (so_id : Str) (db : DB) : List DomainFact :=
  match db.salesOrders.find? (fun o => o.so_id = so_id) with
  | none => []
  | some o =>
      let base : DomainFact :=
        { table := "sales_orders".data, id := o.so_id
          data := [("so_number".data, .s o.so_number), ("title".data, .s o.title),
                   ("status".data, .s o.status), ("created_at".data, .q o.created_at)]
          relevance_score := 1 }
      let woFacts := (db.workOrders.filter (fun w => w.so_id = so_id)).map
        (fun w => ({ table := "work_orders".data, id := w.wo_id
                     data := [("description".data, optV w.description),
                              ("status".data, .s w.status),
                              ("technician".data, optV w.technician),
                              ("scheduled_for".data, optQ w.scheduled_for)]
                     relevance_score := 8/10 } : DomainFact))
      base :: woFacts

/-- `RetrievalService._get_invoice_facts`: the invoice row (1.0) and the
aggregated payment information (0.9). -/
def get_invoice_facts (invoice_id : Str) (db : DB) : List DomainFact :=
  match db.invoices.find? (fun i => i.invoice_id = invoice_id) with
  | none => []
  | some i =>
      let base : DomainFact :=
        { table := "invoices".data, id := i.invoice_id
          data := [("invoice_number".data, .s i.invoice_number), ("amount".data, .q i.amount),
                   ("due_date".data, .q i.due_date), ("status".data, .s i.status),
                   ("issued_at".data, .q i.issued_at)]
          relevance_score := 1 }
      let pays := db.payments.filter (fun p => p.invoice_id = invoice_id)
      let total_paid := (pays.map (fun p => p.amount)).foldr (· + ·) 0
      let payFact : DomainFact :=
        { table := "invoice_payments".data, id := i.invoice_id
          data := [("total_paid".data, .q total_paid),
                   ("remaining_balance".data, .q (i.amount - total_paid)),
                   ("payment_count".data, .q pays.length)]
          relevance_score := 9/10 }
      [base, payFact]

/-- `RetrievalService._get_work_order_facts`. -/
def get_work_order_facts (wo_id : Str) (db : DB) : List DomainFact :=
  match db.workOrders.find? (fun w => w.wo_id = wo_id) with
  | none => []
  | some w =>
      [{ table := "work_orders".data, id := w.wo_id
         data := [("description".data, optV w.description), ("status".data, .s w.status),
                  ("technician".data, optV w.technician),
                  ("scheduled_for".data, optQ w.scheduled_for)]
         relevance_score := 1 }]

/-- `RetrievalService._get_task_facts`. -/
def get_task_facts (task_id : Str) (db : DB) : List DomainFact :=
  match db.tasks.find? (fun t => t.task_id = task_id) with
  | none => []
  | some t =>
      [{ table := "tasks".data, id := t.task_id
         data := [("title".data, .s t.title), ("body".data, optV t.body),
                  ("status".data, .s t.status), ("created_at".data, .q t.created_at)]
         relevance_score := 1 }]

/-- `RetrievalService._retrieve_domain_facts`: dispatch on the
`external_ref.table` of each entity. -/
def retrieve_domain_facts (entities : List Entity) (db : DB) : List DomainFact :=
  entities.flatMap (fun e =>
    match e.external_ref with
    | none => []
    | some r =>
        let eid := r.id.getD []
        match r.table with
        | some t =>
            if t = "domain.customers".data then get_customer_facts eid db
            else if t = "domain.sales_orders".data then get_sales_order_facts eid db
            else if t = "domain.invoices".data then get_invoice_facts eid db
            else if t = "domain.tasks".data then get_task_facts eid db
            else if t = "domain.work_orders".data then get_work_order_facts eid db
            else []
        | none => [])

/-- Decimal digits to a natural number (Python `int(...)` on a digit run). -/
def digitsToNat (ds : Str) : Nat :=
  ds.foldl (fun acc c => acc * 10 + (c.toNat - '0'.toNat)) 0

/-- Integer rendering for f-string interpolation. -/
def intToStr (i : Int) : Str :=
  match i with
  | .ofNat n => natToStr n
  | .negSucc n => '-' :: natToStr (n + 1)

/-- Case-sensitive literal parse. -/
def litCS (lit : Str) (s : Str) : Option (Str × Str) :=
  match lit, s with
  | [], _ => some ([], s)
  | _ :: _, [] => none
  | l :: ls, c :: cs =>
      if c = l then (litCS ls cs).map (fun r => (c :: r.1, r.2)) else none

/-- Match `(\d+)\s+days?\s+ago` at the current position of the (already
lowercased) text, returning the captured digit run as a number. -/
def matchDaysAgoAt (s : Str) : Option Nat :=
  let ds := s.takeWhile (fun c => isDigitChar c)
  if ds.isEmpty then none
  else
    match wsPlus (s.drop ds.length) with
    | none => none
    | some (_, r) =>
        match litCS ("day".data) r with
        | none => none
        | some (_, r2) =>
            let r3 := match litCS ("s".data) r2 with
              | some (_, x) => x
              | none => r2
            match wsPlus r3 with
            | none => none
            | some (_, r4) =>
                match litCS ("ago".data) r4 with
                | some _ => some (digitsToNat ds)
                | none => none

/-- `re.search(r'(\d+)\s+days?\s+ago', text)`: first matching position. -/
def searchDaysAgo : Nat → Str → Option Nat
  | 0, _ => none
  | _, [] => none
  | fuel + 1, c :: cs =>
      match matchDaysAgoAt (c :: cs) with
      | some n => some n
      | none => searchDaysAgo fuel cs

/-- `RetrievalService._add_memory_status_info`: append bracketed status notes
to each retrieved memory's text.  All checks read the lowercased text as it
was before any note is appended. -/
def add_memory_status_info (now : ℚ) (mems : List MemoryRetrievalResult) :
    List MemoryRetrievalResult :=
  mems.map (fun mem =>
    let days_old : Int := ⌊now - mem.created_at⌋
    let tl := lowerStr mem.text
    let t1 :=
      match searchDaysAgo (tl.length + 1) tl with
      | some n =>
          if 90 < n then
            mem.text ++ (" [Note: This preference is ".data ++ natToStr n
              ++ " days old]".data)
          else mem.text
      | none =>
          if (containsSub tl ("prefer".data) || containsSub tl ("prefers".data))
              ∧ 90 < days_old then
            mem.text ++ (" [Note: This preference is ".data ++ intToStr days_old
              ++ " days old]".data)
          else mem.text
    let t2 :=
      if containsSub tl ("sla".data) || containsSub tl ("breach".data)
          || containsSub tl ("risk".data) then
        t1 ++ " [Note: This involves SLA risk]".data
      else t1
    let t3 :=
      if containsSub tl ("done".data) || containsSub tl ("complete".data)
          || containsSub tl ("finished".data) then
        t2 ++ " [Note: This task is completed]".data
      else t2
    let t4 :=
      if containsSub tl ("invoice".data)
          ∧ (containsSub tl ("due".data) || containsSub tl ("remind".data)) then
        t3 ++ " [Note: This involves invoice reminders]".data
      else t3
    { mem with text := t4 })

/-- `RetrievalService._is_conflicting_memory`: opposite day/time tokens. -/
def is_conflicting_memory (text1 text2 : Str) : Bool :=
  let t1 := lowerStr text1
  let t2 := lowerStr text2
  let pairs : List (Str × Str) :=
    [ ("thursday".data, "friday".data), ("friday".data, "thursday".data)
    , ("monday".data, "tuesday".data), ("tuesday".data, "monday".data)
    , ("morning".data, "afternoon".data), ("afternoon".data, "morning".data) ]
  pairs.any (fun p =>
    (containsSub t1 p.1 ∧ containsSub t2 p.2)
      || (containsSub t1 p.2 ∧ containsSub t2 p.1))

/-- Ordered pairs `(i, j)` with `i < j` of a list (the nested conflict loop). -/
def orderedPairs : List MemoryRetrievalResult →
    List (MemoryRetrievalResult × MemoryRetrievalResult)
  | [] => []
  | x :: xs => (xs.map (fun y => (x, y))) ++ orderedPairs xs

/-- `RetrievalService._detect_conflicting_memories`: contradicting semantic
preference memories about the same hard-coded customer. -/
def detect_conflicting_memories (query : Str) (mems : List MemoryRetrievalResult) :
    List DomainFact :=
  let ql := lowerStr query
  let names := (if containsSub ql ("kai media".data) then ["kai media".data] else [])
    ++ (if containsSub ql ("tc boiler".data) then ["tc boiler".data] else [])
  names.flatMap (fun name =>
    let cms := mems.filter (fun m =>
      m.kind = "semantic".data ∧ containsSub (lowerStr m.text) name
        ∧ (containsSub (lowerStr m.text) ("prefer".data)
            || containsSub (lowerStr m.text) ("like".data)))
    let conflicts := (orderedPairs cms).filterMap (fun p =>
      if is_conflicting_memory p.1.text p.2.text then
        some (Val.obj
          [ ("memory1".data, .obj [("id".data, .q p.1.memory_id), ("text".data, .s p.1.text),
              ("created_at".data, .q p.1.created_at), ("importance".data, .q p.1.importance)])
          , ("memory2".data, .obj [("id".data, .q p.2.memory_id), ("text".data, .s p.2.text),
              ("created_at".data, .q p.2.created_at), ("importance".data, .q p.2.importance)])
          , ("resolution".data,
              .s (if p.1.created_at > p.2.created_at then "most_recent".data else "older".data)) ])
      else none)
    if conflicts.isEmpty then []
    else
      [{ table := "memory_conflicts".data, id := "conflict_".data ++ name
         data := [("customer".data, .s name), ("conflicts".data, .arr conflicts),
                  ("resolution_strategy".data, .s ("most_recent".data))]
         relevance_score := 9/10 }])

/-- `RetrievalService._build_customer_reasoning_chain`. -/
def build_customer_reasoning_chain (customer_id : Str) (db : DB) :
    Option (List (Str × Val)) :=
  match db.customers.find? (fun c => c.customer_id = customer_id) with
  | none => none
  | some c =>
      let sos := db.salesOrders.filter (fun o => o.customer_id = customer_id)
      let soData := sos.map (fun o =>
        let wos := db.workOrders.filter (fun w => w.so_id = o.so_id)
        let invs := db.invoices.filter (fun i => i.so_id = o.so_id)
        Val.obj
          [ ("so_number".data, .s o.so_number), ("status".data, .s o.status)
          , ("work_orders".data, .arr (wos.map (fun w => Val.obj
              [("status".data, .s w.status), ("description".data, optV w.description),
               ("technician".data, optV w.technician)])))
          , ("invoices".data, .arr (invs.map (fun i => Val.obj
              [("invoice_number".data, .s i.invoice_number), ("status".data, .s i.status),
               ("amount".data, .q i.amount)]))) ])
      let can_invoice := sos.any (fun o =>
        (db.workOrders.filter (fun w => w.so_id = o.so_id ∧ w.status = "done".data)).length ≠ 0
          ∧ (db.invoices.filter (fun i => i.so_id = o.so_id)).isEmpty)
      let should_send := sos.any (fun o =>
        ¬(db.invoices.filter (fun i => i.so_id = o.so_id ∧ i.status = "open".data)).isEmpty)
      let blocked := sos.flatMap (fun o =>
        (db.workOrders.filter (fun w => w.so_id = o.so_id ∧ w.status = "blocked".data)).map
          (fun w => Val.obj [("so_number".data, .s o.so_number),
            ("description".data, optV w.description)]))
      some
        [ ("customer".data, .s c.name), ("sales_orders".data, .arr soData)
        , ("can_invoice".data, .b can_invoice)
        , ("should_send_invoice".data, .b should_send)
        , ("blocked_work_orders".data, .arr blocked) ]

/-- `RetrievalService._build_reasoning_chains`: one reasoning-chain fact per
customer entity. -/
def build_reasoning_chains (entities : List Entity) (db : DB) : List DomainFact :=
  entities.flatMap (fun e =>
    match e.external_ref with
    | none => []
    | some r =>
        if r.table = some ("domain.customers".data) then
          let eid := r.id.getD []
          match build_customer_reasoning_chain eid db with
          | some chain =>
              [{ table := "reasoning_chains".data, id := "chain_".data ++ eid
                 data := chain, relevance_score := 8/10 }]
          | none => []
        else [])

/-- The status keywords of `_detect_db_memory_inconsistencies` (the literal
list from the source, including the `"is.*complete"` entry that is matched as
a plain substring). -/
def statusQueryKeywords : List Str :=
  [ "status".data, "complete".data, "done".data, "finished".data, "fulfilled".data
  , "is.*complete".data ]

/-- The pre-filter words a memory must contain to count as claiming a
(possibly conflicting) status. -/
def conflictingStatusWords : List Str :=
  ["fulfilled".data, "complete".data, "done".data, "finished".data]

/-- The `status_mappings` dict: DB status → memory statuses that conflict. -/
def status_mappings (s : Str) : Option (List Str) :=
  if s = "in_fulfillment".data then
    some ["fulfilled".data, "complete".data, "done".data, "finished".data]
  else if s = "draft".data then
    some ["fulfilled".data, "complete".data, "done".data, "finished".data]
  else if s = "open".data then
    some ["paid".data, "complete".data, "done".data, "finished".data]
  else if s = "queued".data then
    some ["done".data, "complete".data, "finished".data]
  else none

/-- Match `\b(SO-\d+|INV-\d+|WO-\d+)\b` at the current position
(case-sensitive; the leading `\b` is checked by the scanner). -/
def matchOrderAt (s : Str) : Option (Str × Str) :=
  let tryLit (lit : Str) : Option (Str × Str) :=
    match litCS lit s with
    | none => none
    | some (a, r) =>
        let ds := r.takeWhile (fun c => isDigitChar c)
        if ds.isEmpty then none
        else if endBoundary (r.drop ds.length) then some (a ++ ds, r.drop ds.length)
        else none
  match tryLit ("SO-".data) with
  | some m => some m
  | none =>
      match tryLit ("INV-".data) with
      | some m => some m
      | none => tryLit ("WO-".data)

/-- Scanner for the order-identifier regex (with the leading word
boundary). -/
def orderFindAux : Nat → Option Char → Str → List Str
  | 0, _, _ => []
  | _, _, [] => []
  | fuel + 1, prev, c :: cs =>
      let boundaryOk : Bool :=
        match prev with
        | none => true
        | some p => !isWordChar p
      if boundaryOk then
        match matchOrderAt (c :: cs) with
        | some (m, rest) => m :: orderFindAux fuel (some (m.getLastD c)) rest
        | none => orderFindAux fuel (some c) cs
      else orderFindAux fuel (some c) cs

/-- `re.findall(r'\b(SO-\d+|INV-\d+|WO-\d+)\b', query)` (case-sensitive). -/
def findOrderIds (query : Str) : List Str :=
  orderFindAux (query.length + 1) none query

/-- `RetrievalService._detect_db_memory_inconsistencies`: for status queries
that reference an order identifier, compare the DB status of the matching
*sales-order* fact with the status words claimed by retrieved memories, and
emit a `db_memory_inconsistency` fact with `resolution = prefer_db`.  The DB
fact lookup only ever inspects facts with `table == "sales_orders"` keyed by
`so_number`, so `INV-`/`WO-` identifiers can never produce a fact. -/
def soNumberIs (f : DomainFact) (onum : Str) : Bool :=
  match dGet f.data ("so_number".data) with
  | some (.s v) => v = onum
  | _ => false

/-- See `soNumberIs`: the DB-fact lookup of the inconsistency detector. -/
def findSoFact (facts : List DomainFact) (onum : Str) : Option DomainFact :=
  facts.find? (fun f => f.table = "sales_orders".data ∧ soNumberIs f onum)

/-- The main body of `_detect_db_memory_inconsistencies` (doc above). -/
def detect_db_memory_inconsistencies (query : Str)
    (mems : List MemoryRetrievalResult) (facts : List DomainFact) :
    List DomainFact :=
  let ql := lowerStr query
  if statusQueryKeywords.any (fun k => containsSub ql k) then
    (findOrderIds query).flatMap (fun onum =>
      match findSoFact facts onum with
      | none => []
      | some db_fact =>
          let conflicting := mems.filter (fun mem =>
            containsSub (lowerStr mem.text) (lowerStr onum)
              ∧ conflictingStatusWords.any (fun w => containsSub (lowerStr mem.text) w))
          let db_status := lowerStr (getStrD db_fact.data ("status".data))
          match status_mappings db_status with
          | none => []
          | some ws =>
              match conflicting.findSome? (fun mem =>
                  ws.find? (fun w => containsSub (lowerStr mem.text) w)) with
              | none => []
              | some mstat =>
                  if conflicting.isEmpty then []
                  else
                    [{ table := "db_memory_inconsistency".data
                       id := "inconsistency_".data ++ onum
                       data :=
                         [ ("order_number".data, .s onum)
                         , ("db_status".data, .s db_status)
                         , ("memory_status".data, .s mstat)
                         , ("conflicting_memories".data, .arr (conflicting.map (fun mem =>
                             Val.obj [("memory_id".data, .q mem.memory_id),
                               ("text".data, .s mem.text),
                               ("created_at".data, .q mem.created_at)])))
                         , ("resolution".data, .s ("prefer_db".data))
                         , ("action".data, .s ("mark_memory_for_decay".data))
                         , ("message".data, .s ("Database shows ".data ++ db_status
                             ++ " but memory says ".data ++ mstat
                             ++ ". Using database truth.".data)) ]
                       relevance_score := 95/100 }])
  else []

open Classical in
/-- `RetrievalService._calculate_similarity` (the numpy cosine used for
summaries). -/
noncomputable def calculate_similarity (a b : List ℝ) : ℝ :=
  let dot := ((a.zip b).map (fun p => p.1 * p.2)).foldr (· + ·) 0
  let n1 := Real.sqrt ((a.map (fun x => x * x)).foldr (· + ·) 0)
  let n2 := Real.sqrt ((b.map (fun x => x * x)).foldr (· + ·) 0)
  if n1 = 0 ∨ n2 = 0 then 0 else dot / (n1 * n2)

open Classical in
/-- `RetrievalService._retrieve_relevant_summaries`.  For a summary row
WITH an embedding the source constructs `MemoryRetrievalResult` (a
validated, non-table model) without its required `importance`/`created_at`
fields, which raises `ValidationError`; the system itself never persists a
summary embedding (consolidation always stores `embedding=None` and nothing
backfills it), so that raise is unreachable from program-produced stores.
The model instead completes such rows with importance 0.5 and the summary's
own timestamp; whole-pipeline theorems are therefore read over
program-reachable stores. -/
noncomputable def retrieve_relevant_summaries (query_embedding : List ℝ)
    (user_id : Str) (db : DB) : List MemoryRetrievalResult :=
  let results := (db.summaries.filter (fun s => s.user_id = user_id)).filterMap
    (fun s =>
      match s.embedding with
      | some e => some
          ({ memory_id := s.summary_id, text := s.summary, kind := "summary".data
             similarity := calculate_similarity query_embedding e
             importance := 1/2, created_at := s.created_at } : MemoryRetrievalResult)
      | none => none)
  results.insertionSort (fun x y => y.similarity ≤ x.similarity)

/-- `app.models.chat.RetrievalContext`. -/
structure RetrievalContext where
  memories : List MemoryRetrievalResult
  domain_facts : List DomainFact
  entities : List Entity

open Classical in
/-- `RetrievalService.retrieve_context`: summary short-circuit above 0.7
similarity, else memory retrieval with status notes, domain facts, conflict
facts, reasoning chains and DB/memory inconsistency facts (each batch
appended to the fact list before the next stage runs). -/
noncomputable def retrieve_context (query : Str) (query_embedding : List ℝ)
    (user_id : Str) (session_id : Option Nat) (lim : Nat) (db : DB) :
    RetrievalContext :=
  let entities := extract_entities query (session_id.getD 0) ("default".data) db
  let summaries := retrieve_relevant_summaries query_embedding user_id db
  let normal : RetrievalContext :=
    let mems := add_memory_status_info db.now
      (retrieve_memories query_embedding user_id session_id none lim db)
    let facts := retrieve_domain_facts entities db
    let facts2 := facts ++ detect_conflicting_memories query mems
    let facts3 := facts2 ++ build_reasoning_chains entities db
    let facts4 := facts3 ++ detect_db_memory_inconsistencies query mems facts3
    { memories := mems, domain_facts := facts4, entities := entities }
  match summaries with
  | [] => normal
  | s0 :: _ =>
      if s0.similarity > (7/10 : ℝ) then
        { memories := [s0], domain_facts := retrieve_domain_facts entities db
          entities := entities }
      else normal

end OMem

namespace OMem

/-! ## `ActionKnowledgeMemoryClassifier`
(`action_knowledge_memory_classifier.py`)

The LLM call and its JSON/text parsing are external; the oracle returns the
dict the source would obtain from `_llm_classify` (`some d`), or `none` for
the exception path, which falls back to the embedded rule-based classifier.
`classify_memory` always preserves the input text; the `entities` field of
`ClassifiedMemory` is computed but never read by the pipeline and is
omitted. -/

/-- The classification dict `{category, kind, importance, ttl_days, reasoning,
confidence}`. -/
structure ClassifierDict where
  category : Str
  kind : Str
  importance : ℚ
  ttl_days : Option Int
  reasoning : Str
  confidence : ℚ
deriving DecidableEq

/-- `MemoryCategory`. -/
inductive MemoryCategory where
  | ACTION
  | KNOWLEDGE
  | STATUS
  | PREFERENCE
deriving DecidableEq

/-- `ClassifiedMemory` (without the unread `entities` field). -/
structure ClassifiedMemory where
  text : Str
  category : MemoryCategory
  kind : Str
  importance : ℚ
  ttl_days : Option Int
  confidence : ℚ
  reasoning : Str
deriving DecidableEq

/-- `ActionKnowledgeMemoryClassifier._rule_based_classify`. -/
def rule_based_classify (text : Str) : ClassifierDict :=
  let tl := lowerStr text
  let action_keywords : List Str :=
    [ "drafted".data, "sent".data, "created".data, "completed".data, "finished".data
    , "done".data, "rescheduled".data, "updated".data, "processed".data
    , "executed".data, "performed".data, "email".data, "work order".data
    , "invoice".data, "order".data, "task".data ]
  let knowledge_keywords : List Str :=
    [ "prefers".data, "likes".data, "dislikes".data, "always".data, "never".data
    , "usually".data, "policy".data, "rule".data, "standard".data, "preference".data
    , "habit".data, "custom".data, "net15".data, "net30".data, "ach".data
    , "credit card".data, "friday".data, "monday".data ]
  let action_score := (action_keywords.filter (fun k => containsSub tl k)).length
  let knowledge_score := (knowledge_keywords.filter (fun k => containsSub tl k)).length
  if knowledge_score < action_score then
    { category := "ACTION".data, kind := "episodic".data, importance := 8/10
      ttl_days := some 30
      reasoning := "Rule-based: ACTION keywords found (".data
        ++ natToStr action_score ++ ")".data
      confidence := 6/10 }
  else if action_score < knowledge_score then
    { category := "KNOWLEDGE".data, kind := "semantic".data, importance := 9/10
      ttl_days := none
      reasoning := "Rule-based: KNOWLEDGE keywords found (".data
        ++ natToStr knowledge_score ++ ")".data
      confidence := 6/10 }
  else
    { category := "ACTION".data, kind := "episodic".data, importance := 7/10
      ttl_days := some 30
      reasoning := "Rule-based: Default ACTION classification".data
      confidence := 1/2 }

/-- `_convert_to_classified_memory`: category string (uppercased) to the
enum, defaulting to `ACTION`; the text is passed through unchanged. -/
def convert_to_classified_memory (text : Str) (c : ClassifierDict) : ClassifiedMemory :=
  let cv := upperStr c.category
  let category :=
    if cv = "ACTION".data then MemoryCategory.ACTION
    else if cv = "KNOWLEDGE".data then MemoryCategory.KNOWLEDGE
    else if cv = "STATUS".data then MemoryCategory.STATUS
    else if cv = "PREFERENCE".data then MemoryCategory.PREFERENCE
    else MemoryCategory.ACTION
  { text := text, category := category, kind := c.kind, importance := c.importance
    ttl_days := c.ttl_days, confidence := c.confidence, reasoning := c.reasoning }

/-- `ActionKnowledgeMemoryClassifier.classify_memory` with the LLM behind the
`llmClassify` oracle (`none` = exception → rule fallback). -/
def classify_memory (llmClassify : Str → Option ClassifierDict) (text : Str) :
    ClassifiedMemory :=
  match llmClassify text with
  | some d => convert_to_classified_memory text d
  | none => convert_to_classified_memory text (rule_based_classify text)

/-! ## `HybridChatPipeline` (`hybrid_chat_pipeline.py`) -/

/-- `ProcessingMode`. -/
inductive ProcessingMode where
  | SIMPLE
  | FULL
deriving DecidableEq

/-- `app.models.chat.PromptContext`. -/
structure PromptContext where
  system_prompt : Str
  user_message : Str
  memories : List MemoryRetrievalResult
  domain_facts : List DomainFact
  conversation_history : List ChatMessage

/-- The external providers of the pipeline: the embedding client, the chat
LLM (`LLMService.generate_response`, a pure text producer), the classifier
LLM, and the fresh session id drawn by `uuid.uuid4()` when the request has
none. -/
structure Oracles where
  embed : Str → List ℝ
  llm : PromptContext → Str
  llmClassify : Str → Option ClassifierDict
  freshSession : Nat

/-- `app.models.memory.ChatRequest`. -/
structure ChatRequest where
  user_id : Str
  session_id : Option Nat
  message : Str

/-- An entry of `ChatResponse.used_memories`. -/
structure UsedMemory where
  memory_id : Nat
  text : Str
  similarity : ℝ
  kind : Str

/-- An entry of `ChatResponse.candidate_entities`. -/
structure CandidateEntity where
  name : Str
  type : Str
  external_ref : Option ExternalRef
deriving DecidableEq

/-- `ChatResponse` as the pipeline builds it. -/
structure ChatResponse where
  reply : Str
  used_memories : List UsedMemory
  used_domain_facts : List DomainFact
  session_id : Nat
  disambiguation_needed : Bool
  candidate_entities : List CandidateEntity

/-- `_step1_quick_intent_detection`: general-chat patterns, business
keywords, and the force-full customer keywords. -/
def step1_quick_intent_detection (message : Str) : ProcessingMode :=
  let general_patterns : List Str :=
    [ "how are you".data, "hello".data, "hi".data, "thanks".data, "thank you".data
    , "good morning".data, "good afternoon".data, "good evening".data
    , "what is the weather".data, "what time is it".data, "bye".data, "goodbye".data
    , "see you".data, "take care".data, "have a good day".data ]
  let business_keywords : List Str :=
    [ "customer".data, "order".data, "invoice".data, "payment".data, "work order".data
    , "task".data, "kai media".data, "tc boiler".data, "so-".data, "inv-".data
    , "wo-".data, "draft".data, "send".data, "reschedule".data, "create".data
    , "update".data, "complete".data, "prefer".data, "like".data, "remember".data
    , "policy".data, "rule".data, "status".data, "delivery".data, "schedule".data
    , "due".data, "amount".data, "balance".data, "agreed".data, "terms".data
    , "net15".data, "ach".data, "rush".data, "monthly".data, "plan".data ]
  let customer_force_keywords : List Str :=
    [ "tc boiler".data, "kai media".data, "net15".data, "payment terms".data
    , "prefer".data, "agreed".data, "remember:".data ]
  let ml := pyStrip (lowerStr message)
  let is_general_chat := general_patterns.any (fun p => containsSub ml p)
  let has_business_content := business_keywords.any (fun k => containsSub ml k)
  let force_full_mode := customer_force_keywords.any (fun k => containsSub ml k)
  if force_full_mode then ProcessingMode.FULL
  else if is_general_chat ∧ ¬has_business_content then ProcessingMode.SIMPLE
  else ProcessingMode.FULL

/-- `_load_conversation_history` / `_step8_conversation_history`: the newest
10 session events in chronological order (ties on `created_at` resolved by
insertion order, as rows are returned by the store). -/
def load_conversation_history (db : DB) (sid : Nat) : List ChatMessage :=
  let evs := db.chatEvents.filter (fun e => e.session_id = sid)
  ((evs.reverse.take 10).reverse).map (fun e =>
    { role := e.role, content := e.content, timestamp := e.created_at })

/-- `_store_chat_events` / `_step13_chat_events_storage`: append the user and
assistant rows. -/
def store_chat_events (db : DB) (sid : Nat) (userMsg assistantMsg : Str) : DB :=
  let e1 : ChatEvent := { event_id := db.nextEventId, session_id := sid
                          role := "user".data, content := userMsg, created_at := db.now }
  let e2 : ChatEvent := { event_id := db.nextEventId + 1, session_id := sid
                          role := "assistant".data, content := assistantMsg
                          created_at := db.now }
  { db with chatEvents := db.chatEvents ++ [e1, e2], nextEventId := db.nextEventId + 2 }

/-- The numbered candidate list of `_build_clarification_prompt`. -/
def enumCandidateLines (i : Nat) : List Entity → Str
  | [] => []
  | e :: es => natToStr (i + 1) ++ ". ".data ++ e.name ++ "\n".data
      ++ enumCandidateLines (i + 1) es

/-- `_build_clarification_prompt`. -/
def build_clarification_prompt (candidates : List Entity) : Str :=
  "I found multiple possible matches for your query. Please clarify which one you mean:\n\n".data
    ++ enumCandidateLines 0 candidates
    ++ "\nPlease respond with the number or name of your choice.".data

/-- A `Memory` object constructed in step 11 before persistence (no row id
yet). -/
structure StagedMemory where
  kind : Str
  text : Str
  embedding : Option (List ℝ)
  importance : ℚ
  ttl_days : Option Int

/-- `_extract_implicit_preference`. -/
def extract_implicit_preference (user_message : Str) : Option Str :=
  let ml := lowerStr user_message
  if containsSub ml ("reschedule".data) ∧ containsSub ml ("friday".data)
      ∧ containsSub ml ("kai media".data) then
    some ("Kai Media prefers Friday; align WO scheduling accordingly.".data)
  else if containsSub ml ("prefer".data) ∧ containsSub ml ("friday".data) then
    if containsSub ml ("kai media".data) then
      some ("Kai Media prefers Friday deliveries for all shipments.".data)
    else if containsSub ml ("tc boiler".data) then
      some ("TC Boiler prefers Friday deliveries for all shipments.".data)
    else none
  else if containsSub ml ("net".data)
      ∧ (containsSub ml ("tc boiler".data) || containsSub ml ("kai media".data)) then
    if containsSub ml ("tc boiler".data) then
      some ("TC Boiler is NET15; align payment terms accordingly.".data)
    else if containsSub ml ("kai media".data) then
      some ("Kai Media is NET15; align payment terms accordingly.".data)
    else none
  else none

/-- `_process_memories_with_classifier`: force-semantic on `remember:`, then
on the customer keywords, else classify the user message (ACTION/KNOWLEDGE
produce one memory) plus any implicit preference. -/
def process_memories_with_classifier (o : Oracles) (userMsg : Str) :
    List StagedMemory :=
  let ml := lowerStr userMsg
  if containsSub ml ("remember:".data) then
    [{ kind := "semantic".data, text := userMsg, embedding := some (o.embed userMsg)
       importance := 9/10, ttl_days := none }]
  else
    let customer_keywords : List Str :=
      [ "tc boiler".data, "kai media".data, "net15".data, "payment terms".data
      , "prefer".data, "agreed".data ]
    if customer_keywords.any (fun k => containsSub ml k) then
      [{ kind := "semantic".data, text := userMsg, embedding := some (o.embed userMsg)
         importance := 9/10, ttl_days := none }]
    else
      let um := classify_memory o.llmClassify userMsg
      let base : List StagedMemory :=
        if um.category = MemoryCategory.ACTION ∨ um.category = MemoryCategory.KNOWLEDGE then
          [{ kind := um.kind, text := um.text, embedding := some (o.embed um.text)
             importance := um.importance, ttl_days := um.ttl_days }]
        else []
      match extract_implicit_preference userMsg with
      | some p => base ++
          [{ kind := "semantic".data, text := p, embedding := some (o.embed p)
             importance := 9/10, ttl_days := none }]
      | none => base

/-- `_step11_memory_processing`: force-semantic on the customer keywords
(including `remember:`) in any mode, else the short-term memory in SIMPLE
mode, else the classifier path. -/
def step11_memory_processing (o : Oracles) (mode : ProcessingMode) (userMsg : Str) :
    List StagedMemory :=
  let customer_keywords : List Str :=
    [ "tc boiler".data, "kai media".data, "net15".data, "payment terms".data
    , "prefer".data, "agreed".data, "remember:".data ]
  if customer_keywords.any (fun k => containsSub (lowerStr userMsg) k) then
    [{ kind := "semantic".data, text := userMsg, embedding := some (o.embed userMsg)
       importance := 9/10, ttl_days := none }]
  else if mode = ProcessingMode.SIMPLE then
    if 10 < userMsg.length then
      let t := "User said: ".data ++ userMsg
      [{ kind := "episodic".data, text := t, embedding := some (o.embed t)
         importance := 3/10, ttl_days := some 7 }]
    else []
  else process_memories_with_classifier o userMsg

/-- `_step12_memory_storage`: persist each staged memory through
`create_memory` (passing the request's PII matches) and then attempt
consolidation (`force=False`). -/
def step12_memory_storage (user_id : Str) (sid : Nat) (pii : List PIIMatch)
    (staged : List StagedMemory) (db : DB) : DB :=
  let db1 := staged.foldl (fun db m =>
    (create_memory sid m.kind m.text m.embedding m.importance m.ttl_days pii db).2) db
  (consolidate_memories user_id 3 false db1).2

/-- The pipeline context after steps 1–3 (intent, PII, entity extraction and
persistence, disambiguation). -/
structure PipelineFront where
  session_id : Nat
  mode : ProcessingMode
  pii_matches : List PIIMatch
  user_message : Str
  entities : List Entity
  dres : DisambiguationResult

/-- Steps 1–3 of `HybridChatPipeline.process`: intent detection on the raw
message, PII masking of the working message, entity extraction and linking
(rows persisted), history load, and the disambiguation decision. -/
def pipeline_front (o : Oracles) (req : ChatRequest) (db : DB) : PipelineFront × DB :=
  let sid := req.session_id.getD o.freshSession
  let mode := step1_quick_intent_detection req.message
  let pii := detect_pii req.message
  let userMsg := mask_pii req.message pii
  let extracted := extract_entities userMsg sid req.user_id db
  let linked := link_entities_to_domain db extracted
  let db2 := { db with entities := db.entities ++ linked }
  let history := load_conversation_history db2 sid
  let r := decide_disambiguation o.embed linked history userMsg req.user_id db2
  ({ session_id := sid, mode := mode, pii_matches := pii, user_message := userMsg
     entities := linked, dres := r.1 }, r.2)

open Classical in
/-- `HybridChatPipeline.process`: the clarification branch stores the chat
events and returns; the normal branch embeds the message, retrieves context
(FULL mode only), loads history, builds the prompt, calls the LLM, processes
and stores memories, stores the chat events, and builds the response. -/
noncomputable def process (o : Oracles) (req : ChatRequest) (db : DB) :
    ChatResponse × DB :=
  let front := pipeline_front o req db
  let ctx := front.1
  let db3 := front.2
  if ctx.dres.needed then
    let candidates := ctx.dres.candidates.getD []
    let prompt := build_clarification_prompt candidates
    let db4 := store_chat_events db3 ctx.session_id ctx.user_message prompt
    ({ reply := prompt, used_memories := [], used_domain_facts := []
       session_id := ctx.session_id, disambiguation_needed := true
       candidate_entities := candidates.map (fun e =>
         { name := e.name, type := e.type, external_ref := e.external_ref }) }, db4)
  else
    let qe := o.embed ctx.user_message
    let rctx : Option RetrievalContext :=
      if ctx.mode = ProcessingMode.SIMPLE then none
      else some (retrieve_context ctx.user_message qe req.user_id
        (some ctx.session_id) 10 db3)
    let history2 := load_conversation_history db3 ctx.session_id
    let sysPrompt :=
      if ctx.mode = ProcessingMode.SIMPLE then
        "You are a helpful assistant. Provide a brief, friendly response.".data
      else
        "You are an intelligent business assistant with access to customer data, orders, invoices, and memory.".data
    let pmems := match rctx with
      | some c => c.memories
      | none => []
    let pfacts := match rctx with
      | some c => c.domain_facts
      | none => []
    let pctx : PromptContext :=
      { system_prompt := sysPrompt, user_message := ctx.user_message
        memories := pmems, domain_facts := pfacts, conversation_history := history2 }
    let reply := o.llm pctx
    let staged := step11_memory_processing o ctx.mode ctx.user_message
    let db4 := step12_memory_storage req.user_id ctx.session_id ctx.pii_matches staged db3
    let db5 := store_chat_events db4 ctx.session_id ctx.user_message reply
    ({ reply := reply
       used_memories := (match rctx with
         | some c => c.memories.map (fun m =>
             { memory_id := m.memory_id, text := m.text, similarity := m.similarity
               kind := m.kind })
         | none => [])
       used_domain_facts := (match rctx with
         | some c => c.domain_facts
         | none => [])
       session_id := ctx.session_id
       disambiguation_needed := false
       candidate_entities := [] }, db5)

/-- The one unhandled exception on the pipeline's reachable paths: the
request is a clarification reply (non-empty history whose last assistant
message carries a clarification marker) but entity extraction yields no
candidate, so `_parse_user_selection` evaluates `candidates[0]` on an empty
list and the `IndexError` propagates out of `process` — the request fails
and nothing is persisted. -/
def pipeline_raises (o : Oracles) (req : ChatRequest) (db : DB) : Bool :=
  let sid := req.session_id.getD o.freshSession
  let pii := detect_pii req.message
  let userMsg := mask_pii req.message pii
  let extracted := extract_entities userMsg sid req.user_id db
  let linked := link_entities_to_domain db extracted
  let db2 := { db with entities := db.entities ++ linked }
  let history := load_conversation_history db2 sid
  !history.isEmpty && is_clarification_response history && linked.isEmpty

open Classical in
/-- `HybridChatPipeline.process` as observed by the caller, exceptions
included: on the `pipeline_raises` inputs the `IndexError` of
`_parse_user_selection` aborts the request with nothing persisted (`none`);
on every other input the run completes as `process` describes.  (The
`ValidationError` latent in `_retrieve_relevant_summaries` is not modelled:
it needs a summary row with an embedding, which no code path of the system
produces — see that definition's docstring.) -/
noncomputable def process_run (o : Oracles) (req : ChatRequest) (db : DB) :
    Option (ChatResponse × DB) :=
  if pipeline_raises o req db then none else some (process o req db)

end OMem

namespace OMem

/-! ## Concrete instances used by the claim theorems -/

/-- A test oracle: deterministic trivial providers. -/
def oracle0 : Oracles :=
  { embed := fun _ => [], llm := fun _ => "ok".data, llmClassify := fun _ => none
    freshSession := 7 }

/-- A store seeded with the two `Kai Media` customers of the test data. -/
def kaiDB : DB :=
  { emptyDB with customers :=
      [ { customer_id := "c1".data, name := "Kai Media".data, industry := none, notes := none }
      , { customer_id := "c2".data, name := "Kai Media Europe".data, industry := none
          notes := none } ] }

/-! ## C10 — retrieval ignores `user_id` and `session_id` -/

/-- C10: the result of `retrieve_memories` is independent of its `user_id`
argument (and of `session_id`): for a fixed store, query embedding, kind
filter and limit, any two callers receive the same ranked list, because
neither argument restricts the candidate set. -/
theorem c10_retrieval_user_independent (q : List ℝ) (u1 u2 : Str)
    (s1 s2 : Option Nat) (k : Option Str) (lim : Nat) (db : DB) :
    retrieve_memories q u1 s1 k lim db = retrieve_memories q u2 s2 k lim db := rfl

/-! ## C6 — expired memories are not excluded -/

/-- The expired memory of the C6 counterexample: ttl 5 days, created at day
0, current time day 1000. -/
def c6memory : Memory :=
  { memory_id := 1, session_id := 3, kind := "episodic".data, text := "note".data
    embedding := some [1], importance := 1/2, ttl_days := some 5, created_at := 0 }

/-- The C6 store holding only the expired memory. -/
def c6db : DB := { emptyDB with memories := [c6memory], now := 1000 }

/-- C6 counterexample: a memory whose `created_at + ttl_days` lies far in the
past is still returned by `retrieve_memories` (TTL filtering is commented out
in the source), refuting "never includes that memory". -/
theorem c6_counterexample :
    c6memory.ttl_days = some 5
    ∧ c6memory.created_at + 5 < c6db.now
    ∧ c6db.memories = [c6memory]
    ∧ (retrieve_memories [1] ("u".data) none none 10 c6db).map (fun r => r.memory_id)
        = [c6memory.memory_id] := by
  refine ⟨rfl, by with_unfolding_all decide, rfl, ?_⟩
  with_unfolding_all rfl

/-- Erase the TTL of a row. -/
def clearTtl (m : Memory) : Memory := { m with ttl_days := none }

/-- `filterMap` does not see the TTL of a row. -/
theorem filterMap_clearTtl (F : Memory → Option MemoryRetrievalResult)
    (hF : ∀ m, F (clearTtl m) = F m) :
    ∀ l : List Memory, (l.map clearTtl).filterMap F = l.filterMap F := by
  intro l
  induction l with
  | nil => rfl
  | cons m t ih =>
      simp only [List.map_cons, List.filterMap_cons, hF m, ih]

/-- `filter` on the kind does not see the TTL of a row. -/
theorem filter_clearTtl (p : Memory → Bool) (hp : ∀ m, p (clearTtl m) = p m) :
    ∀ l : List Memory, (l.map clearTtl).filter p = (l.filter p).map clearTtl := by
  intro l
  induction l with
  | nil => rfl
  | cons m t ih =>
      simp only [List.map_cons, List.filter_cons, hp m]
      cases p m with
      | false => simpa using ih
      | true => simp [ih]

/-- C6 (amended): `retrieve_memories` performs no expiration filtering at
all — its result is unchanged when every `ttl_days` in the store is erased,
so an expired memory is ranked exactly like an unexpired one. -/
theorem c6_ttl_ignored (q : List ℝ) (uid : Str) (sid : Option Nat)
    (k : Option Str) (lim : Nat) (db : DB) :
    retrieve_memories q uid sid k lim { db with memories := db.memories.map clearTtl }
      = retrieve_memories q uid sid k lim db := by
  unfold retrieve_memories
  cases k with
  | none =>
      dsimp only
      rw [filterMap_clearTtl _ (fun m => by rfl)]
  | some kk =>
      dsimp only
      rw [filter_clearTtl _ (fun m => by rfl), filterMap_clearTtl _ (fun m => by rfl)]

/-! ## C9 — `/consolidate/` returns 500, not 404, when nothing to do -/

set_option maxRecDepth 40000 in
/-- C9: for a user with no memories eligible for consolidation the route
responds with HTTP 500 ("Internal server error: 404: ..."), not 404 — the
`HTTPException(404)` raised inside the `try` block is caught by the blanket
`except Exception` and re-raised as a 500. -/
theorem c9_consolidate_route_500_not_404 :
    emptyDB.memories = []
    ∧ (consolidate_route ("u1".data) emptyDB).1
        = ConsolidateHttp.err 500
            ("Internal server error: 404: No memories found to consolidate".data) := by
  exact ⟨rfl, by with_unfolding_all decide⟩

/-! ## C3 — the alias round-trip is broken -/

/-- The two Kai candidates as the extraction produces them. -/
def kaiEnt1 : Entity :=
  { session_id := some 5, name := "Kai Media".data, type := "customer".data
    source := some ("db".data)
    external_ref := some ⟨some ("domain.customers".data), some ("c1".data),
      some ("fuzzy".data)⟩ }

/-- The second Kai candidate. -/
def kaiEnt2 : Entity :=
  { session_id := some 5, name := "Kai Media Europe".data, type := "customer".data
    source := some ("db".data)
    external_ref := some ⟨some ("domain.customers".data), some ("c2".data),
      some ("fuzzy".data)⟩ }

/-- The store after the clarification turn: the reply `"1"` chose
`Kai Media`, but the alias insert failed and rolled back, so nothing
changed. -/
noncomputable def c3dbAfter : DB :=
  (process_clarification oracle0.embed ("1".data) [kaiEnt1, kaiEnt2] ("u".data) kaiDB).2

set_option maxRecDepth 40000 in
/-- C3: the clarification reply `"1"` chooses `Kai Media`, but the alias is
never persisted — the `Memory` constructed by `store_alias_mapping` omits
the required `session_id`, the INSERT violates the `NOT NULL` constraint,
the handler rolls back and returns `False`, leaving the store unchanged —
and a later message equal to `"1"` does not resolve to `Kai Media`: entity
extraction returns no entity at all and the disambiguator returns
`needed=false, selected=none`.  Even a row that HAD committed could never be
read back, because the lookup query touches the undeclared
`Memory.external_ref` and the raised `AttributeError` is swallowed to
`None`; the round-trip promised by the spec is impossible. -/
theorem c3_alias_roundtrip_broken :
    (process_clarification oracle0.embed ("1".data) [kaiEnt1, kaiEnt2] ("u".data) kaiDB).1
        = some kaiEnt1
    ∧ (store_alias_mapping oracle0.embed ("u".data) ("1".data) kaiEnt1.name
        ("c1".data) kaiDB).1 = false
    ∧ c3dbAfter.memories = kaiDB.memories
    ∧ extract_entities ("1".data) 5 ("u".data) c3dbAfter = []
    ∧ (decide_disambiguation oracle0.embed
        (extract_entities ("1".data) 5 ("u".data) c3dbAfter) [] ("1".data) ("u".data)
        c3dbAfter).1
        = { needed := false, selected := none, candidates := none, scores := none } := by
  refine ⟨by with_unfolding_all decide, rfl, by with_unfolding_all rfl, ?_, ?_⟩
  · with_unfolding_all rfl
  · with_unfolding_all rfl

end OMem

namespace OMem

/-! ## C1 — the masked text can still contain a phone-pattern substring -/

/-- The C1 request: the message contains a detected phone number
(`1234567890`) whose digit string also prefixes a longer, undetected digit
run. -/
def c1req : ChatRequest :=
  { user_id := "u".data, session_id := some 5
    message := "kai call 1234567890 now 12345678905551234567".data }

/-- What the pipeline persists as the user chat event content for `c1req`:
`str.replace` also rewrites the detected number inside the longer run,
exposing a fresh boundary-delimited ten-digit run. -/
def c1masked : Str := "kai call ***-***-**** now ***-***-****5551234567".data

set_option maxRecDepth 40000 in
/-- C1 counterexample: for `c1req` (whose message contains a phone-pattern
match), the user chat event persisted by the pipeline is the masked message —
but that masked text still contains a substring matching the phone pattern
(`5551234567` between the mask and the end of the text), refuting
"contains no substring matching the phone pattern". -/
theorem c1_counterexample :
    phoneFindAll c1req.message ≠ []
    ∧ ((process oracle0 c1req kaiDB).2.chatEvents.filter
        (fun e => e.role = "user".data)).map (fun e => e.content) = [c1masked]
    ∧ c1masked = maskMessage c1req.message
    ∧ phoneFindAll c1masked ≠ [] := by
  refine ⟨by with_unfolding_all decide, ?_, by with_unfolding_all decide,
    by with_unfolding_all decide⟩
  with_unfolding_all rfl

/-! ## C4 — a clarification turn persists no memory at all -/

/-- The C4 counterexample request: contains `remember:` but also the bare
`kai` shortform, which yields two candidates with equal scores. -/
def c4req : ChatRequest :=
  { user_id := "u".data, session_id := some 5
    message := "Remember: Kai is important".data }

set_option maxRecDepth 40000 in
/-- C4 counterexample: the message contains case-insensitive `remember:`,
yet processing it persists no memory whatsoever — the two `Kai Media`
candidates tie, the pipeline takes the clarification branch and returns
before any memory is created. -/
theorem c4_counterexample :
    containsSub (lowerStr c4req.message) ("remember:".data) = true
    ∧ kaiDB.memories = []
    ∧ (process oracle0 c4req kaiDB).1.disambiguation_needed = true
    ∧ (process oracle0 c4req kaiDB).2.memories.isEmpty = true := by
  refine ⟨by decide, rfl, ?_, ?_⟩
  · with_unfolding_all decide
  · with_unfolding_all decide

/-! ## C5 — a missing confidence key scores 1.0, not 0.5 -/

/-- A candidate without a `confidence` key in its `external_ref` (as every
order/invoice/task/work-order entity and every linked entity is built). -/
def c5e1 : Entity :=
  { session_id := some 1, name := "Alpha".data, type := "order".data
    source := some ("db".data)
    external_ref := some ⟨some ("domain.sales_orders".data), some ("s1".data), none⟩ }

/-- A candidate carrying `confidence = fuzzy`. -/
def c5e2 : Entity :=
  { session_id := some 1, name := "Beta".data, type := "customer".data
    source := some ("db".data)
    external_ref := some ⟨some ("domain.customers".data), some ("c9".data),
      some ("fuzzy".data)⟩ }

/-- Modelled from the claim's words (not from the source): score 1.0 for
confidence `exact`, 0.8 for `fuzzy`, and 0.5 otherwise — "otherwise"
includes a candidate without a confidence value. -/
def claimScoreC5 (e : Entity) : ℚ :=
  match e.external_ref with
  | some r =>
      match r.confidence with
      | some c => if c = "exact".data then 1 else if c = "fuzzy".data then 8/10 else 1/2
      | none => 1/2
  | none => 1/2

/-- C5 counterexample: with candidates `[c5e1 (no confidence), c5e2 (fuzzy)]`
and no pending clarification, the code scores the missing confidence as
`exact` (1.0 vs 0.8, gap 0.2 > 0.05) and auto-selects `c5e1`; under the
claim's scoring (0.5 vs 0.8, gap 0.3 > 0.05) the top scorer is `c5e2 ≠ c5e1`,
so the decision the claim describes differs from the code's. -/
theorem c5_counterexample :
    (decide_disambiguation oracle0.embed [c5e1, c5e2] [] ("q".data) ("u".data) emptyDB).1
        = { needed := false, selected := some c5e1, candidates := none, scores := none }
    ∧ calculate_entity_score c5e1 = 1
    ∧ claimScoreC5 c5e1 = 1/2
    ∧ claimScoreC5 c5e2 = 8/10
    ∧ claimScoreC5 c5e1 < claimScoreC5 c5e2
    ∧ c5e1 ≠ c5e2 := by
  refine ⟨by with_unfolding_all decide, by with_unfolding_all decide,
    by with_unfolding_all decide, by with_unfolding_all decide,
    by with_unfolding_all decide, by decide⟩

/-! ## C8 — `INV-`/`WO-` identifiers never produce an inconsistency fact -/

/-- The C8 counterexample query: a status question referencing `INV-2001`. -/
def c8query : Str := "Is INV-2001 done? status".data

/-- A retrieved memory claiming the invoice is done. -/
def c8mem : MemoryRetrievalResult :=
  { memory_id := 1, text := "INV-2001 done".data, kind := "episodic".data
    similarity := 0, importance := 1/2, created_at := 0 }

/-- The invoice's domain fact: DB status `open`. -/
def c8fact : DomainFact :=
  { table := "invoices".data, id := "i1".data
    data := [("invoice_number".data, .s ("INV-2001".data)),
             ("status".data, .s ("open".data))]
    relevance_score := 1 }

/-- C8 counterexample: the query asks about status and references `INV-2001`,
the DB status `open` conflicts with the memory's claimed `done` under the
mapping `open ↔ {paid, complete, done, finished}` — yet no
`db_memory_inconsistency` fact is emitted, because the DB-fact lookup only
matches facts with `table = "sales_orders"` keyed by `so_number`. -/
theorem c8_counterexample :
    statusQueryKeywords.any (fun k => containsSub (lowerStr c8query) k) = true
    ∧ findOrderIds c8query = ["INV-2001".data]
    ∧ getStrD c8fact.data ("status".data) = "open".data
    ∧ "done".data ∈ (status_mappings ("open".data)).getD []
    ∧ containsSub (lowerStr c8mem.text) (lowerStr ("INV-2001".data)) = true
    ∧ containsSub (lowerStr c8mem.text) ("done".data) = true
    ∧ detect_db_memory_inconsistencies c8query [c8mem] [c8fact] = [] := by
  refine ⟨by decide, by decide, by decide, by decide, by decide, by decide, ?_⟩
  with_unfolding_all rfl

end OMem

namespace OMem

/-! ## C2 — dedup idempotence of `create_memory` -/

/-- `find?` skips a prefix in which nothing matches. -/
theorem find_append_of_none {α : Type} (p : α → Bool) (l1 l2 : List α)
    (h : l1.find? p = none) : (l1 ++ l2).find? p = l2.find? p := by
  induction l1 with
  | nil => rfl
  | cons a tl ih =>
      cases hp : p a with
      | true => simp [List.find?, hp] at h
      | false =>
          simp only [List.find?, hp] at h
          simp only [List.cons_append, List.find?, hp]
          exact ih h

/-- `create_memory` without PII matches on a store holding no duplicate and
no similar semantic row inserts a fresh row. -/
theorem create_memory_fresh (sid : Nat) (kind t : Str) (emb : Option (List ℝ))
    (imp : ℚ) (ttl : Option Int) (db : DB)
    (hfresh : ∀ m ∈ db.memories, ¬(m.session_id = sid ∧ m.text = t))
    (hsim : ∀ m ∈ db.memories, m.kind = "semantic".data →
      is_similar_memory t m.text = false) :
    create_memory sid kind t emb imp ttl [] db = insertMemory sid kind t emb imp ttl db := by
  have htext : (if ([] : List PIIMatch) ≠ [] then create_masked_memory_text t [] else t) = t := by
    simp
  have hf : db.memories.find? (fun m => m.text = t ∧ m.session_id = sid) = none := by
    rw [List.find?_eq_none]
    intro m hm
    simp only [Bool.not_eq_true, decide_eq_false_iff_not]
    intro hc
    exact hfresh m hm ⟨hc.2, hc.1⟩
  unfold create_memory
  rw [htext]
  simp only [hf]
  by_cases hk : kind = "semantic".data
  · rw [if_pos hk]
    have hf2 : (db.memories.filter
        (fun m => m.kind = "semantic".data ∧ containsSub m.text (t.take 50))).find?
        (fun m => is_similar_memory t m.text) = none := by
      rw [List.find?_eq_none]
      intro m hm
      have hm' := List.mem_filter.mp hm
      have hk' : m.kind = "semantic".data := by
        have h2 := hm'.2
        simp only [Bool.and_eq_true, decide_eq_true_eq] at h2
        exact h2.1
      simp [hsim m hm'.1 hk']
    simp only [hf2]
  · rw [if_neg hk]

/-- `countP` is unchanged by mapping a function that preserves the predicate. -/
theorem countP_map_eq {α : Type} (f : α → α) (p : α → Bool) (l : List α)
    (h : ∀ x, p (f x) = p x) : (l.map f).countP p = l.countP p := by
  induction l with
  | nil => rfl
  | cons a tl ih => simp [List.countP_cons, h, ih]

/-- C2: creating the same `(session, kind, text)` twice leaves exactly one
stored row for `(session, text)`; the second call returns the row created by
the first (same `memory_id`), that row is still stored, its kind and text are
unchanged, and its importance after the second call is `max i1 i2` — provided
the store held no row with that text in the session and, for semantic kinds,
no similar semantic row. -/
theorem c2_dedup_idempotent (sid : Nat) (kind t : Str) (e1 e2 : Option (List ℝ))
    (i1 i2 : ℚ) (ttl1 ttl2 : Option Int) (db : DB)
    (hfresh : ∀ m ∈ db.memories, ¬(m.session_id = sid ∧ m.text = t))
    (hsim : ∀ m ∈ db.memories, m.kind = "semantic".data →
      is_similar_memory t m.text = false) :
    (create_memory sid kind t e2 i2 ttl2 []
        (create_memory sid kind t e1 i1 ttl1 [] db).2).1.memory_id
      = (create_memory sid kind t e1 i1 ttl1 [] db).1.memory_id
    ∧ ((create_memory sid kind t e2 i2 ttl2 []
        (create_memory sid kind t e1 i1 ttl1 [] db).2).2.memories.countP
          (fun m => m.session_id = sid ∧ m.text = t)) = 1
    ∧ (create_memory sid kind t e2 i2 ttl2 []
        (create_memory sid kind t e1 i1 ttl1 [] db).2).1.importance = max i1 i2
    ∧ (create_memory sid kind t e2 i2 ttl2 []
        (create_memory sid kind t e1 i1 ttl1 [] db).2).1
        ∈ (create_memory sid kind t e2 i2 ttl2 []
            (create_memory sid kind t e1 i1 ttl1 [] db).2).2.memories
    ∧ (create_memory sid kind t e2 i2 ttl2 []
        (create_memory sid kind t e1 i1 ttl1 [] db).2).1.kind = kind
    ∧ (create_memory sid kind t e2 i2 ttl2 []
        (create_memory sid kind t e1 i1 ttl1 [] db).2).1.text = t := by
  rw [create_memory_fresh sid kind t e1 i1 ttl1 db hfresh hsim]
  have hrowtext : (insertMemory sid kind t e1 i1 ttl1 db).1.text = t := rfl
  have hrowsid : (insertMemory sid kind t e1 i1 ttl1 db).1.session_id = sid := rfl
  have hrowimp : (insertMemory sid kind t e1 i1 ttl1 db).1.importance = i1 := rfl
  have hmems : (insertMemory sid kind t e1 i1 ttl1 db).2.memories
      = db.memories ++ [(insertMemory sid kind t e1 i1 ttl1 db).1] := rfl
  have hprev : db.memories.find? (fun m => m.text = t ∧ m.session_id = sid) = none := by
    rw [List.find?_eq_none]
    intro m hm
    simp only [Bool.not_eq_true, decide_eq_false_iff_not]
    intro hc
    exact hfresh m hm ⟨hc.2, hc.1⟩
  have h0 : db.memories.countP (fun m => m.session_id = sid ∧ m.text = t) = 0 := by
    rw [List.countP_eq_zero]
    intro m hm
    simp only [Bool.not_eq_true, decide_eq_false_iff_not]
    exact hfresh m hm
  have hf2 : (insertMemory sid kind t e1 i1 ttl1 db).2.memories.find?
      (fun m => m.text = t ∧ m.session_id = sid)
      = some (insertMemory sid kind t e1 i1 ttl1 db).1 := by
    rw [hmems, find_append_of_none _ _ _ hprev]
    simp [List.find?, hrowtext, hrowsid]
  have htext : (if ([] : List PIIMatch) ≠ [] then create_masked_memory_text t [] else t) = t := by
    simp
  unfold create_memory
  rw [htext]
  simp only [hf2]
  unfold bumpImportance
  by_cases hlt : i2 > (insertMemory sid kind t e1 i1 ttl1 db).1.importance
  · rw [if_pos hlt]
    rw [hrowimp] at hlt
    refine ⟨rfl, ?_, ?_, ?_, rfl, rfl⟩
    · have hpres : ∀ m : Memory,
          (fun m : Memory => decide (m.session_id = sid ∧ m.text = t))
            ((fun m : Memory =>
              if m.memory_id = (insertMemory sid kind t e1 i1 ttl1 db).1.memory_id
              then { m with importance := i2 } else m) m)
          = (fun m : Memory => decide (m.session_id = sid ∧ m.text = t)) m := by
        intro m
        by_cases h : m.memory_id = (insertMemory sid kind t e1 i1 ttl1 db).1.memory_id
        · simp [h]
        · simp [h]
      rw [countP_map_eq _ _ _ hpres, hmems, List.countP_append, h0]
      simp [List.countP, List.countP.go, hrowtext, hrowsid]
    · show i2 = max i1 i2
      exact (max_eq_right (le_of_lt hlt)).symm
    · have h1 : (insertMemory sid kind t e1 i1 ttl1 db).1
          ∈ (insertMemory sid kind t e1 i1 ttl1 db).2.memories := by
        rw [hmems]
        exact List.mem_append_right _ (List.mem_singleton.mpr rfl)
      have h2 := List.mem_map_of_mem
        (fun m : Memory =>
          if m.memory_id = (insertMemory sid kind t e1 i1 ttl1 db).1.memory_id
          then { m with importance := i2 } else m) h1
      simpa using h2
  · rw [if_neg hlt]
    rw [hrowimp] at hlt
    refine ⟨rfl, ?_, ?_, ?_, rfl, rfl⟩
    · rw [hmems, List.countP_append, h0]
      simp [List.countP, List.countP.go, hrowtext, hrowsid]
    · show i1 = max i1 i2
      exact (max_eq_left (not_lt.mp hlt)).symm
    · rw [hmems]
      exact List.mem_append_right _ (List.mem_singleton.mpr rfl)

/-- C2 witness: the dedup law at concrete inputs (`i1 = 3/10`, `i2 = 7/10`,
empty store). -/
theorem c2_dedup_idempotent_witness :
    (create_memory 1 ("semantic".data) ("hello world".data) none (7/10) none []
        (create_memory 1 ("semantic".data) ("hello world".data) none (3/10) none []
          emptyDB).2).1.memory_id
      = (create_memory 1 ("semantic".data) ("hello world".data) none (3/10) none []
          emptyDB).1.memory_id
    ∧ ((create_memory 1 ("semantic".data) ("hello world".data) none (7/10) none []
        (create_memory 1 ("semantic".data) ("hello world".data) none (3/10) none []
          emptyDB).2).2.memories.countP
        (fun m => m.session_id = 1 ∧ m.text = "hello world".data)) = 1
    ∧ (create_memory 1 ("semantic".data) ("hello world".data) none (7/10) none []
        (create_memory 1 ("semantic".data) ("hello world".data) none (3/10) none []
          emptyDB).2).1.importance = max (3/10) (7/10) := by
  have h := c2_dedup_idempotent 1 ("semantic".data) ("hello world".data) none none
    (3/10) (7/10) none none emptyDB
    (fun m hm => absurd hm (List.not_mem_nil m))
    (fun m hm _ => absurd hm (List.not_mem_nil m))
  exact ⟨h.1, h.2.1, h.2.2.1⟩

/-! ## C7 — recency monotonicity of the retrieval score -/

/-- C7 counterexample: with identical embeddings and equal importance, the
memory with the MORE recent `created_at` can receive a strictly SMALLER
score, because cosine similarity may be negative and the recency weight then
amplifies the penalty: query `[1]`, embedding `[-1]` (cosine `-1`),
importance `1`, now `400`; the memory created at `400` scores `-1`, the one
created at `0` scores `-1/10`. -/
theorem c7_counterexample :
    (0:ℚ) ≤ 400
    ∧ memory_score [1] [-1] 1 400 400 < memory_score [1] [-1] 1 400 0 := by
  have hcos : cosine_similarity [(1:ℝ)] [(-1:ℝ)] = -1 := by
    unfold cosine_similarity
    norm_num [Real.sqrt_one]
  have hw1 : calculate_recency_weight 400 400 = 1 := by
    unfold calculate_recency_weight
    norm_num
  have hw2 : calculate_recency_weight 400 0 = 1/10 := by
    unfold calculate_recency_weight
    norm_num
  refine ⟨by norm_num, ?_⟩
  unfold memory_score
  rw [hcos, hw1, hw2]
  norm_num

/-- C7 (amended): for two stored memories with identical embeddings and equal
importance, the more recent `created_at` receives a retrieval score ≥ the
older one's, PROVIDED the cosine similarity of the query with the shared
embedding is nonnegative and the importance is nonnegative; without those
sign conditions the inequality reverses (see the counterexample). -/
theorem c7_recency_monotone (query emb : List ℝ) (importance : ℚ)
    (now c_old c_new : ℚ) (hc : c_old ≤ c_new)
    (hcos : 0 ≤ cosine_similarity query emb) (himp : 0 ≤ importance) :
    memory_score query emb importance now c_old
      ≤ memory_score query emb importance now c_new := by
  have hfl : (⌊now - c_new⌋ : ℚ) ≤ (⌊now - c_old⌋ : ℚ) := by
    exact_mod_cast Int.floor_le_floor (by linarith)
  have hw : calculate_recency_weight now c_old ≤ calculate_recency_weight now c_new := by
    unfold calculate_recency_weight
    apply max_le_max le_rfl
    linarith
  unfold memory_score
  have hmul : (0:ℝ) ≤ cosine_similarity query emb * (importance : ℝ) :=
    mul_nonneg hcos (by exact_mod_cast himp)
  have hw' : ((calculate_recency_weight now c_old : ℚ) : ℝ)
      ≤ ((calculate_recency_weight now c_new : ℚ) : ℝ) := by exact_mod_cast hw
  exact mul_le_mul_of_nonneg_left hw' hmul

/-- C7 witness: the amended monotonicity at concrete inputs (query `[1]`,
embedding `[1]`, importance `1/2`, now `10`, ages `0 ≤ 10`). -/
theorem c7_recency_monotone_witness :
    (0:ℚ) ≤ 10
    ∧ memory_score [1] [1] (1/2) 10 0 ≤ memory_score [1] [1] (1/2) 10 10 := by
  have hcos1 : cosine_similarity [(1:ℝ)] [(1:ℝ)] = 1 := by
    unfold cosine_similarity
    norm_num [Real.sqrt_one]
  exact ⟨by norm_num,
    c7_recency_monotone [1] [1] (1/2) 10 0 10 (by norm_num)
      (by rw [hcos1]; norm_num) (by norm_num)⟩

/-! ## C8 — amended: inconsistency detection on sales-order identifiers -/

/-- A list with a member is not empty. -/
theorem isEmpty_false_of_mem {α : Type} {x : α} {l : List α} (h : x ∈ l) :
    l.isEmpty = false := by
  cases l with
  | nil => cases h
  | cons a t => rfl

/-- `findSome?` succeeds when it succeeds on some member. -/
theorem findSome_isSome_of_mem {α β : Type} (f : α → Option β) {l : List α} {x : α}
    (hx : x ∈ l) (hfx : (f x).isSome = true) : (l.findSome? f).isSome = true := by
  induction l with
  | nil => cases hx
  | cons a t ih =>
      rcases List.mem_cons.mp hx with h | h
      · subst h
        rw [List.findSome?_cons]
        cases hfa : f x with
        | some b => rfl
        | none => rw [hfa] at hfx; cases hfx
      · rw [List.findSome?_cons]
        cases hfa : f a with
        | some b => rfl
        | none => exact ih h

/-- `flatMap` is nonempty when one inner list is. -/
theorem flatMap_ne_nil_of_mem {α β : Type} (g : α → List β) {l : List α} {x : α}
    (hx : x ∈ l) (hg : g x ≠ []) : l.flatMap g ≠ [] := by
  induction l with
  | nil => cases hx
  | cons a t ih =>
      rw [List.flatMap_cons]
      rcases List.mem_cons.mp hx with h | h
      · subst h
        intro hc
        exact hg (List.append_eq_nil.mp hc).1
      · intro hc
        exact ih h (List.append_eq_nil.mp hc).2

/-- C8 (amended): the DB/memory inconsistency detector works ONLY for
identifiers that resolve to a `sales_orders` fact keyed by `so_number`
(`INV-`/`WO-` identifiers never produce a fact, see the counterexample).
For a status query referencing such an order number, with a DB status in the
`status_mappings` table and a retrieved memory mentioning the order and a
mapped conflicting status word, the result is nonempty and every emitted
fact is a `db_memory_inconsistency` with `resolution = prefer_db` and
`action = mark_memory_for_decay`. -/
theorem c8_so_inconsistency_emitted (query : Str) (mems : List MemoryRetrievalResult)
    (facts : List DomainFact) (onum : Str) (db_fact : DomainFact)
    (mem : MemoryRetrievalResult) (ws : List Str)
    (hq : statusQueryKeywords.any (fun k => containsSub (lowerStr query) k) = true)
    (ho : onum ∈ findOrderIds query)
    (hfact : findSoFact facts onum = some db_fact)
    (hmap : status_mappings (lowerStr (getStrD db_fact.data ("status".data))) = some ws)
    (hmem : mem ∈ mems)
    (hmo : containsSub (lowerStr mem.text) (lowerStr onum) = true)
    (hconf : conflictingStatusWords.any (fun w => containsSub (lowerStr mem.text) w) = true)
    (hws : (ws.find? (fun w => containsSub (lowerStr mem.text) w)).isSome = true) :
    detect_db_memory_inconsistencies query mems facts ≠ []
    ∧ ∀ f ∈ detect_db_memory_inconsistencies query mems facts,
        f.table = "db_memory_inconsistency".data
        ∧ getStrD f.data ("resolution".data) = "prefer_db".data
        ∧ getStrD f.data ("action".data) = "mark_memory_for_decay".data := by
  have hmemc : mem ∈ mems.filter (fun mem =>
      containsSub (lowerStr mem.text) (lowerStr onum)
        ∧ conflictingStatusWords.any (fun w => containsSub (lowerStr mem.text) w)) :=
    List.mem_filter.mpr ⟨hmem, by simp [hmo, hconf]⟩
  have hne : (mems.filter (fun mem =>
      containsSub (lowerStr mem.text) (lowerStr onum)
        ∧ conflictingStatusWords.any (fun w => containsSub (lowerStr mem.text) w))).isEmpty
      = false := isEmpty_false_of_mem hmemc
  have hsome := findSome_isSome_of_mem
    (fun mem => ws.find? (fun w => containsSub (lowerStr mem.text) w)) hmemc hws
  obtain ⟨mstat, hms⟩ := Option.isSome_iff_exists.mp hsome
  constructor
  · unfold detect_db_memory_inconsistencies
    rw [if_pos hq]
    refine flatMap_ne_nil_of_mem _ ho ?_
    simp only [hfact, hmap, hms, hne]
    simp
  · intro f hf
    unfold detect_db_memory_inconsistencies at hf
    rw [if_pos hq] at hf
    obtain ⟨o, ho2, hfo⟩ := List.mem_flatMap.mp hf
    dsimp only at hfo
    split at hfo
    · cases hfo
    · split at hfo
      · cases hfo
      · split at hfo
        · cases hfo
        · split at hfo
          · cases hfo
          · rw [List.mem_singleton] at hfo
            subst hfo
            exact ⟨rfl, rfl, rfl⟩

/-- The spec's concrete scenario: a status query about `SO-1001`. -/
def c8soQuery : Str := "Is SO-1001 fulfilled? status".data

/-- A retrieved memory claiming `SO-1001` is fulfilled. -/
def c8soMem : MemoryRetrievalResult :=
  { memory_id := 2, text := "SO-1001 fulfilled".data, kind := "episodic".data
    similarity := 0, importance := 1/2, created_at := 0 }

/-- The sales order's domain fact: DB status `in_fulfillment`. -/
def c8soFact : DomainFact :=
  { table := "sales_orders".data, id := "s1".data
    data := [("so_number".data, .s ("SO-1001".data)),
             ("status".data, .s ("in_fulfillment".data))]
    relevance_score := 1 }

set_option maxRecDepth 40000 in
/-- C8 witness: the amended law at the spec's concrete scenario — DB status
`in_fulfillment` on `SO-1001`, a memory saying it is fulfilled. -/
theorem c8_so_inconsistency_emitted_witness :
    detect_db_memory_inconsistencies c8soQuery [c8soMem] [c8soFact] ≠ []
    ∧ ∀ f ∈ detect_db_memory_inconsistencies c8soQuery [c8soMem] [c8soFact],
        f.table = "db_memory_inconsistency".data
        ∧ getStrD f.data ("resolution".data) = "prefer_db".data
        ∧ getStrD f.data ("action".data) = "mark_memory_for_decay".data :=
  c8_so_inconsistency_emitted c8soQuery [c8soMem] [c8soFact]
    ("SO-1001".data) c8soFact c8soMem
    ["fulfilled".data, "complete".data, "done".data, "finished".data]
    (by with_unfolding_all decide)
    (by with_unfolding_all decide)
    (by with_unfolding_all rfl)
    (by with_unfolding_all rfl)
    (List.mem_singleton.mpr rfl)
    (by with_unfolding_all decide)
    (by with_unfolding_all decide)
    (by with_unfolding_all rfl)

/-! ## C5 — amended decision procedure of the disambiguator -/

/-- The folded maximum is the head or a member of the tail. -/
theorem foldl_max_mem (h : ℚ) (t : List ℚ) : t.foldl max h ∈ h :: t := by
  induction t generalizing h with
  | nil => simp
  | cons a t ih =>
      simp only [List.foldl_cons]
      rcases List.mem_cons.mp (ih (max h a)) with heq | hmem
      · rw [heq]
        rcases max_choice h a with hc | hc <;> rw [hc] <;> simp
      · exact List.mem_cons_of_mem _ (List.mem_cons_of_mem _ hmem)

/-- `pyMax` of a non-empty list is one of its members. -/
theorem pyMax_mem (l : List ℚ) (h : l ≠ []) : pyMax l ∈ l := by
  cases l with
  | nil => exact absurd rfl h
  | cons a t => exact foldl_max_mem a t

/-- `pyIndex` of a member is in range. -/
theorem pyIndex_lt (l : List ℚ) (v : ℚ) (h : v ∈ l) : pyIndex l v < l.length := by
  induction l with
  | nil => cases h
  | cons a t ih =>
      unfold pyIndex
      by_cases hav : a = v
      · rw [if_pos hav]
        simp
      · rw [if_neg hav]
        have hvt : v ∈ t := by
          rcases List.mem_cons.mp h with h1 | h1
          · exact absurd h1.symm hav
          · exact h1
        simpa using Nat.succ_lt_succ (ih hvt)

/-- Indexing at `pyIndex` recovers the value. -/
theorem getD_pyIndex (l : List ℚ) (v : ℚ) (d : ℚ) (h : v ∈ l) :
    l.getD (pyIndex l v) d = v := by
  induction l with
  | nil => cases h
  | cons a t ih =>
      unfold pyIndex
      by_cases hav : a = v
      · rw [if_pos hav]
        simpa using hav
      · rw [if_neg hav]
        have hvt : v ∈ t := by
          rcases List.mem_cons.mp h with h1 | h1
          · exact absurd h1.symm hav
          · exact h1
        simpa using ih hvt

/-- `getD` on a mapped score list, for an in-range index. -/
theorem getD_map_sc (l : List Entity) (i : Nat) (hi : i < l.length) (d0 : ℚ) :
    (l.map calculate_entity_score).getD i d0
      = calculate_entity_score (l.getD i defaultEntity) := by
  induction l generalizing i with
  | nil => simp at hi
  | cons a t ih =>
      cases i with
      | zero => rfl
      | succ n => simpa using ih n (by simpa using hi)

/-- `getD` at an in-range index is a member. -/
theorem getD_mem_of_lt (l : List Entity) (i : Nat) (hi : i < l.length) (d : Entity) :
    l.getD i d ∈ l := by
  induction l generalizing i with
  | nil => simp at hi
  | cons a t ih =>
      cases i with
      | zero => simp
      | succ n =>
          simp only [List.getD_cons_succ]
          exact List.mem_cons_of_mem _ (ih n (by simpa using hi))

/-- The amended spec's score table: confidence `exact` → 1, `fuzzy` → 0.8,
any other value → 0.5, and a MISSING confidence (or missing `external_ref`)
defaults to `exact`, hence 1 (the original spec scored it 0.5). -/
def claimScoreAmendedC5 (e : Entity) : ℚ :=
  match e.external_ref.bind (fun r => r.confidence) with
  | none => 1
  | some c => if c = "exact".data then 1 else if c = "fuzzy".data then 8/10 else 1/2

/-- C5 (amended): when no pending clarification is detected, the
disambiguator leaves the store untouched and decides as follows — the score
of each candidate follows the amended table (`claimScoreAmendedC5`: a
missing confidence defaults to `exact`, hence 1.0, not 0.5); 0 candidates →
`needed = false`, no selection; 1 candidate → that candidate selected; ≥ 2
candidates → auto-select a top scorer iff `top1 − top2 > 0.05` (`top2` being
the second entry of the descending sort), otherwise request clarification
emitting the full candidate list and the scores. -/
theorem c5_decision_procedure (embed : Str → List ℝ) (entities : List Entity)
    (history : List ChatMessage) (user_message : Str) (user_id : Str) (db : DB)
    (hnc : ¬(¬history.isEmpty = true ∧ is_clarification_response history = true)) :
    (∀ e, calculate_entity_score e = claimScoreAmendedC5 e)
    ∧ (decide_disambiguation embed entities history user_message user_id db).2 = db
    ∧ (entities = [] →
        (decide_disambiguation embed entities history user_message user_id db).1
          = { needed := false, selected := none, candidates := none, scores := none })
    ∧ (∀ e, entities = [e] →
        (decide_disambiguation embed entities history user_message user_id db).1
          = { needed := false, selected := some e, candidates := none, scores := none })
    ∧ (2 ≤ entities.length →
        (((decide_disambiguation embed entities history user_message user_id db).1.needed
            = false
          ↔ pyMax (entities.map calculate_entity_score)
              - (pySortDesc (entities.map calculate_entity_score)).getD 1 0 > 1/20)
         ∧ ((decide_disambiguation embed entities history user_message user_id db).1.needed
              = false →
            ∃ e, (decide_disambiguation embed entities history user_message user_id
                db).1.selected = some e
              ∧ e ∈ entities
              ∧ calculate_entity_score e
                  = pyMax (entities.map calculate_entity_score))
         ∧ ((decide_disambiguation embed entities history user_message user_id db).1.needed
              = true →
            (decide_disambiguation embed entities history user_message user_id
                db).1.selected = none
            ∧ (decide_disambiguation embed entities history user_message user_id
                db).1.candidates = some entities
            ∧ (decide_disambiguation embed entities history user_message user_id
                db).1.scores = some (entities.map calculate_entity_score)))) := by
  have hscore : ∀ e, calculate_entity_score e = claimScoreAmendedC5 e := by
    intro e
    unfold calculate_entity_score claimScoreAmendedC5
    cases href : e.external_ref with
    | none => simp
    | some r =>
        cases hc : r.confidence with
        | none => simp [hc]
        | some c => simp [hc]
  refine ⟨hscore, ?_⟩
  rcases entities with _ | ⟨e1, _ | ⟨e2, rest⟩⟩
  · unfold decide_disambiguation
    rw [if_neg hnc]
    exact ⟨rfl, fun _ => rfl, fun e h => by simp at h, fun h2 => by simp at h2⟩
  · unfold decide_disambiguation
    rw [if_neg hnc]
    refine ⟨rfl, fun h => by simp at h, fun e h => ?_, fun h2 => by simp at h2⟩
    have he : e1 = e := by simpa using h
    subst he
    rfl
  · unfold decide_disambiguation
    rw [if_neg hnc]
    dsimp only
    have hlen : 1 < ((e1 :: e2 :: rest).map calculate_entity_score).length := by
      simp
    rw [if_pos hlen]
    by_cases hgt : pyMax ((e1 :: e2 :: rest).map calculate_entity_score)
        - (pySortDesc ((e1 :: e2 :: rest).map calculate_entity_score)).getD 1 0 > 1/20
    · rw [if_pos hgt]
      refine ⟨rfl, fun h => by simp at h, fun e h => by simp at h, fun _ => ?_⟩
      refine ⟨⟨fun _ => hgt, fun _ => rfl⟩, fun _ => ?_, fun h => by simp at h⟩
      have hne : (e1 :: e2 :: rest).map calculate_entity_score ≠ [] := by simp
      have hm := pyMax_mem _ hne
      have hidx := pyIndex_lt _ _ hm
      have hidx2 : pyIndex ((e1 :: e2 :: rest).map calculate_entity_score)
          (pyMax ((e1 :: e2 :: rest).map calculate_entity_score))
          < (e1 :: e2 :: rest).length := by
        simpa using hidx
      refine ⟨(e1 :: e2 :: rest).getD
        (pyIndex ((e1 :: e2 :: rest).map calculate_entity_score)
          (pyMax ((e1 :: e2 :: rest).map calculate_entity_score))) defaultEntity,
        rfl, getD_mem_of_lt _ _ hidx2 _, ?_⟩
      rw [← getD_map_sc _ _ hidx2 0]
      exact getD_pyIndex _ _ 0 hm
    · rw [if_neg hgt]
      refine ⟨rfl, fun h => by simp at h, fun e h => by simp at h, fun _ => ?_⟩
      exact ⟨⟨fun h => by simp at h, fun hc => absurd hc hgt⟩,
        fun h => by simp at h, fun _ => ⟨rfl, rfl, rfl⟩⟩

/-- C5 witness: two candidates — one with a missing confidence (scored 1 by
the amended table), one `fuzzy` (0.8); the gap 0.2 exceeds 0.05, so the
disambiguator auto-selects a top scorer without clarification. -/
theorem c5_decision_procedure_witness :
    (decide_disambiguation (fun _ => ([] : List ℝ)) [c5e1, c5e2] []
        ("which one".data) ("u".data) emptyDB).1.needed = false
    ∧ ∃ e, (decide_disambiguation (fun _ => ([] : List ℝ)) [c5e1, c5e2] []
        ("which one".data) ("u".data) emptyDB).1.selected = some e
      ∧ e ∈ [c5e1, c5e2]
      ∧ calculate_entity_score e = pyMax ([c5e1, c5e2].map calculate_entity_score) := by
  have h := (c5_decision_procedure (fun _ => ([] : List ℝ)) [c5e1, c5e2] []
    ("which one".data) ("u".data) emptyDB (by simp)).2.2.2.2 (by simp)
  have hgt : pyMax ([c5e1, c5e2].map calculate_entity_score)
      - (pySortDesc ([c5e1, c5e2].map calculate_entity_score)).getD 1 0 > 1/20 := by
    with_unfolding_all decide
  have hneed := h.1.mpr hgt
  exact ⟨hneed, h.2.1 hneed⟩

/-! ## C4 — amended force-semantic rule -/

/-- `bumpImportance` keeps every stored row whose importance equals the new
value (the bump map rewrites a row only to raise its importance strictly). -/
theorem mem_bump (ex : Memory) (imp : ℚ) (db : DB) (m : Memory)
    (hm : m ∈ db.memories) (himp : imp = m.importance) :
    m ∈ (bumpImportance ex imp db).2.memories := by
  subst himp
  unfold bumpImportance
  split
  · have hf : (fun x : Memory => if x.memory_id = ex.memory_id
        then { x with importance := m.importance } else x) m = m := by
      show (if m.memory_id = ex.memory_id
        then { m with importance := m.importance } else m) = m
      by_cases h : m.memory_id = ex.memory_id
      · rw [if_pos h]
      · rw [if_neg h]
    have h2 := List.mem_map_of_mem (fun x : Memory => if x.memory_id = ex.memory_id
        then { x with importance := m.importance } else x) hm
    rw [hf] at h2
    exact h2
  · exact hm

/-- `create_memory` keeps every stored row whose importance equals the new
value. -/
theorem create_memory_preserves (sid : Nat) (kind t : Str) (emb : Option (List ℝ))
    (imp : ℚ) (ttl : Option Int) (pii : List PIIMatch) (db : DB) (m : Memory)
    (hm : m ∈ db.memories) (himp : imp = m.importance) :
    m ∈ (create_memory sid kind t emb imp ttl pii db).2.memories := by
  unfold create_memory
  dsimp only
  split
  · exact mem_bump _ _ _ _ hm himp
  · split
    · split
      · exact mem_bump _ _ _ _ hm himp
      · exact List.mem_append_left _ hm
    · exact List.mem_append_left _ hm

/-- A `foldl` whose step preserves a predicate preserves it overall. -/
theorem foldl_preserves {α : Type} (F : DB → α → DB) (P : DB → Prop)
    (hF : ∀ db x, P db → P (F db x)) :
    ∀ (l : List α) (db : DB), P db → P (l.foldl F db) := by
  intro l
  induction l with
  | nil => exact fun db h => h
  | cons a tl ih => exact fun db h => ih _ (hF db a h)

/-- Episodic promotion only creates importance-0.9 memories, so every stored
row of importance 0.9 survives it. -/
theorem process_episodic_preserves (mems : List Memory) (db : DB) (m : Memory)
    (hm : m ∈ db.memories) (himp : m.importance = 9/10) :
    m ∈ (process_episodic_memories mems db).memories := by
  unfold process_episodic_memories
  refine foldl_preserves _ (fun dbx : DB => m ∈ dbx.memories) ?_ _ db hm
  intro dbx x hx
  dsimp only
  split
  · split
    · split
      · exact create_memory_preserves _ _ _ _ _ _ _ _ _ hx himp.symm
      · exact hx
    · exact hx
  · exact hx

/-- Consolidation never deletes memories, and creates only importance-0.9
rows, so every stored row of importance 0.9 survives it. -/
theorem consolidate_preserves (user_id : Str) (sw : Int) (force : Bool) (db : DB)
    (m : Memory) (hm : m ∈ db.memories) (himp : m.importance = 9/10) :
    m ∈ (consolidate_memories user_id sw force db).2.memories := by
  unfold consolidate_memories
  dsimp only
  split
  · exact hm
  · split
    · exact hm
    · split
      · exact process_episodic_preserves _ _ _ hm himp
      · exact process_episodic_preserves _ _ _ hm himp

/-- C4 (amended): a message containing case-insensitive `remember:` persists
a memory with kind `semantic`, `ttl_days = null`, importance `0.9` and the
message as text, PROVIDED the pipeline does not take the clarification
branch (which returns before any memory is created — see the
counterexample), the message carries no detectable phone-number PII (PII
masking rewrites the stored text), and the store after the entity/alias
phase holds no row that would dedup-absorb it (no same-text row in the
session, no similar semantic row). -/
theorem c4_force_semantic (o : Oracles) (req : ChatRequest) (db : DB)
    (hpii : detect_pii req.message = [])
    (hrem : containsSub (lowerStr req.message) ("remember:".data) = true)
    (hclar : (pipeline_front o req db).1.dres.needed = false)
    (hfresh : ∀ m ∈ (pipeline_front o req db).2.memories,
      ¬(m.session_id = req.session_id.getD o.freshSession ∧ m.text = req.message))
    (hsim : ∀ m ∈ (pipeline_front o req db).2.memories, m.kind = "semantic".data →
      is_similar_memory req.message m.text = false) :
    ∃ m ∈ (process o req db).2.memories,
      m.kind = "semantic".data ∧ m.text = req.message
      ∧ m.importance = 9/10 ∧ m.ttl_days = none
      ∧ m.session_id = req.session_id.getD o.freshSession := by
  have hum : (pipeline_front o req db).1.user_message = req.message := by
    show mask_pii req.message (detect_pii req.message) = req.message
    rw [hpii]
    rfl
  have hpm : (pipeline_front o req db).1.pii_matches = [] := hpii
  have hany : ([ "tc boiler".data, "kai media".data, "net15".data, "payment terms".data
      , "prefer".data, "agreed".data, "remember:".data ] : List Str).any
      (fun k => containsSub (lowerStr req.message) k) = true :=
    List.any_eq_true.mpr ⟨"remember:".data, by simp, hrem⟩
  have hstep11 : step11_memory_processing o (pipeline_front o req db).1.mode req.message
      = [{ kind := "semantic".data, text := req.message
           embedding := some (o.embed req.message), importance := 9/10, ttl_days := none }] := by
    unfold step11_memory_processing
    rw [if_pos hany]
  have hmemeq : (process o req db).2.memories
      = (consolidate_memories req.user_id 3 false
          (create_memory (req.session_id.getD o.freshSession) ("semantic".data) req.message
            (some (o.embed req.message)) (9/10) none [] (pipeline_front o req db).2).2).2.memories := by
    unfold process
    dsimp only
    rw [if_neg (by simp [hclar])]
    rw [hum, hpm, hstep11]
    rfl
  rw [hmemeq, create_memory_fresh _ _ _ _ _ _ _ hfresh hsim]
  refine ⟨(insertMemory (req.session_id.getD o.freshSession) ("semantic".data) req.message
    (some (o.embed req.message)) (9/10) none (pipeline_front o req db).2).1,
    ?_, rfl, rfl, rfl, rfl, rfl⟩
  refine consolidate_preserves _ _ _ _ _ ?_ rfl
  exact List.mem_append_right _ (List.mem_singleton.mpr rfl)

/-- A `remember:` request that extracts no entities (so no clarification). -/
def c4wreq : ChatRequest :=
  { user_id := "u".data, session_id := some 7
    message := "Remember: the deadline moved".data }

set_option maxRecDepth 40000 in
/-- C4 witness: the amended force-semantic law at a concrete request over
the empty store. -/
theorem c4_force_semantic_witness :
    ∃ m ∈ (process oracle0 c4wreq emptyDB).2.memories,
      m.kind = "semantic".data ∧ m.text = c4wreq.message
      ∧ m.importance = 9/10 ∧ m.ttl_days = none
      ∧ m.session_id = c4wreq.session_id.getD oracle0.freshSession := by
  have h0 : (pipeline_front oracle0 c4wreq emptyDB).2.memories = [] := by
    with_unfolding_all rfl
  exact c4_force_semantic oracle0 c4wreq emptyDB
    (by with_unfolding_all rfl)
    (by with_unfolding_all decide)
    (by with_unfolding_all rfl)
    (fun m hm => by rw [h0] at hm; cases hm)
    (fun m hm => by rw [h0] at hm; cases hm)

/-! ## C1 — amended PII-masking persistence -/

/-- `bumpImportance` does not touch the chat-event log. -/
theorem bump_chatEvents (ex : Memory) (imp : ℚ) (db : DB) :
    (bumpImportance ex imp db).2.chatEvents = db.chatEvents := by
  unfold bumpImportance
  split <;> rfl

/-- `create_memory` does not touch the chat-event log. -/
theorem create_memory_chatEvents (sid : Nat) (kind t : Str) (emb : Option (List ℝ))
    (imp : ℚ) (ttl : Option Int) (pii : List PIIMatch) (db : DB) :
    (create_memory sid kind t emb imp ttl pii db).2.chatEvents = db.chatEvents := by
  unfold create_memory
  dsimp only
  split
  · exact bump_chatEvents _ _ _
  · split
    · split
      · exact bump_chatEvents _ _ _
      · rfl
    · rfl

/-- Episodic promotion does not touch the chat-event log. -/
theorem process_episodic_chatEvents (mems : List Memory) (db : DB) :
    (process_episodic_memories mems db).chatEvents = db.chatEvents := by
  unfold process_episodic_memories
  refine foldl_preserves _ (fun dbx : DB => dbx.chatEvents = db.chatEvents) ?_ _ db rfl
  intro dbx x hx
  dsimp only
  split
  · split
    · split
      · rw [create_memory_chatEvents]
        exact hx
      · exact hx
    · exact hx
  · exact hx

/-- Consolidation does not touch the chat-event log. -/
theorem consolidate_chatEvents (uid : Str) (sw : Int) (force : Bool) (db : DB) :
    (consolidate_memories uid sw force db).2.chatEvents = db.chatEvents := by
  unfold consolidate_memories
  dsimp only
  split
  · rfl
  · split
    · rfl
    · split
      · exact process_episodic_chatEvents _ _
      · exact process_episodic_chatEvents _ _

/-- Memory storage (step 12) does not touch the chat-event log. -/
theorem step12_chatEvents (uid : Str) (sid : Nat) (pii : List PIIMatch)
    (staged : List StagedMemory) (db : DB) :
    (step12_memory_storage uid sid pii staged db).chatEvents = db.chatEvents := by
  unfold step12_memory_storage
  dsimp only
  rw [consolidate_chatEvents]
  exact foldl_preserves _ (fun dbx : DB => dbx.chatEvents = db.chatEvents)
    (fun dbx x hx => by dsimp only; rw [create_memory_chatEvents]; exact hx) _ db rfl

/-- The disambiguation decision (including the alias path) does not touch
the chat-event log. -/
theorem decide_chatEvents (embed : Str → List ℝ) (entities : List Entity)
    (history : List ChatMessage) (userMsg uid : Str) (db : DB) :
    (decide_disambiguation embed entities history userMsg uid db).2.chatEvents
      = db.chatEvents := by
  unfold decide_disambiguation
  split
  · unfold process_clarification_from_history
    split
    · rfl
    · rfl
  · rcases entities with _ | ⟨e1, _ | ⟨e2, r⟩⟩
    · rfl
    · rfl
    · dsimp only
      split <;> split <;> rfl

/-- Steps 1–3 of the pipeline do not touch the chat-event log. -/
theorem pipeline_front_chatEvents (o : Oracles) (req : ChatRequest) (db : DB) :
    (pipeline_front o req db).2.chatEvents = db.chatEvents := by
  unfold pipeline_front
  dsimp only
  rw [decide_chatEvents]

/-- The classifier passes the text through unchanged. -/
theorem classify_text (f : Str → Option ClassifierDict) (t : Str) :
    (classify_memory f t).text = t := by
  unfold classify_memory
  split
  · rfl
  · rfl

/-- The five canned implicit-preference sentences of
`_extract_implicit_preference`. -/
def c1cannedPrefs : List Str :=
  [ "Kai Media prefers Friday; align WO scheduling accordingly.".data
  , "Kai Media prefers Friday deliveries for all shipments.".data
  , "TC Boiler prefers Friday deliveries for all shipments.".data
  , "TC Boiler is NET15; align payment terms accordingly.".data
  , "Kai Media is NET15; align payment terms accordingly.".data ]

/-- Every implicit preference the pipeline extracts is one of the five
canned sentences (it never quotes the message). -/
theorem implicit_pref_canned (msg p : Str)
    (h : extract_implicit_preference msg = some p) : p ∈ c1cannedPrefs := by
  unfold extract_implicit_preference at h
  dsimp only at h
  split at h
  · injection h with h2
    subst h2
    simp [c1cannedPrefs]
  · split at h
    · split at h
      · injection h with h2
        subst h2
        simp [c1cannedPrefs]
      · split at h
        · injection h with h2
          subst h2
          simp [c1cannedPrefs]
        · exact Option.noConfusion h
    · split at h
      · split at h
        · injection h with h2
          subst h2
          simp [c1cannedPrefs]
        · split at h
          · injection h with h2
            subst h2
            simp [c1cannedPrefs]
          · exact Option.noConfusion h
      · exact Option.noConfusion h

/-- Every memory staged by step 11 has as text the (already masked) working
message, `User said: ` plus it, or a canned preference sentence. -/
theorem step11_texts (o : Oracles) (mode : ProcessingMode) (userMsg : Str) :
    ∀ sm ∈ step11_memory_processing o mode userMsg,
      sm.text = userMsg
      ∨ sm.text = "User said: ".data ++ userMsg
      ∨ sm.text ∈ c1cannedPrefs := by
  intro sm hsm
  unfold step11_memory_processing at hsm
  dsimp only at hsm
  split at hsm
  · rw [List.mem_singleton] at hsm
    subst hsm
    exact Or.inl rfl
  · split at hsm
    · split at hsm
      · rw [List.mem_singleton] at hsm
        subst hsm
        exact Or.inr (Or.inl rfl)
      · cases hsm
    · unfold process_memories_with_classifier at hsm
      dsimp only at hsm
      split at hsm
      · rw [List.mem_singleton] at hsm
        subst hsm
        exact Or.inl rfl
      · split at hsm
        · rw [List.mem_singleton] at hsm
          subst hsm
          exact Or.inl rfl
        · have hct : (classify_memory o.llmClassify userMsg).text = userMsg :=
            classify_text o.llmClassify userMsg
          cases hip : extract_implicit_preference userMsg with
          | none =>
              simp only [hip] at hsm
              split at hsm
              · rw [List.mem_singleton] at hsm
                subst hsm
                exact Or.inl hct
              · cases hsm
          | some p =>
              simp only [hip] at hsm
              rcases List.mem_append.mp hsm with hb | hp
              · split at hb
                · rw [List.mem_singleton] at hb
                  subst hb
                  exact Or.inl hct
                · cases hb
              · rw [List.mem_singleton] at hp
                subst hp
                exact Or.inr (Or.inr (implicit_pref_canned userMsg p hip))

/-- C1 (amended): whenever a request RUNS TO COMPLETION (a clarification
reply that extracts no candidate raises `IndexError` out of
`_parse_user_selection` and persists nothing — `process_run` returns
`none` there), the pipeline never persists the raw message: the chat log
gains exactly one user event whose content is the MASKED message
(`mask_pii` replaces every detected phone match with `***-***-****`) plus
one assistant event, in both the clarification and the normal branch; and
every memory staged for storage takes as text the masked working message,
`User said: ` plus it, or a canned preference sentence.  The original
claim's stronger clause — that persisted texts contain NO substring
matching the phone pattern — is false: masking can expose a new match
(see the counterexample). -/
theorem c1_masked_persistence (o : Oracles) (req : ChatRequest) (db : DB) :
    ∀ r ∈ process_run o req db,
      ((r.2.chatEvents.map (fun e => (e.role, e.content)))
        = db.chatEvents.map (fun e => (e.role, e.content))
          ++ [("user".data, mask_pii req.message (detect_pii req.message)),
              ("assistant".data, r.1.reply)])
      ∧ ∀ sm ∈ step11_memory_processing o (pipeline_front o req db).1.mode
          (mask_pii req.message (detect_pii req.message)),
          sm.text = mask_pii req.message (detect_pii req.message)
          ∨ sm.text = "User said: ".data ++ mask_pii req.message (detect_pii req.message)
          ∨ sm.text ∈ c1cannedPrefs := by
  intro r hr
  have hrp : r = process o req db := by
    unfold process_run at hr
    split at hr
    · rw [Option.mem_def] at hr
      exact Option.noConfusion hr
    · rw [Option.mem_def] at hr
      injection hr with h
      exact h.symm
  subst hrp
  constructor
  · have hpf : (pipeline_front o req db).2.chatEvents = db.chatEvents :=
      pipeline_front_chatEvents o req db
    unfold process
    dsimp only
    by_cases hneed : (pipeline_front o req db).1.dres.needed = true
    · rw [if_pos hneed]
      unfold store_chat_events
      dsimp only
      rw [List.map_append, hpf]
      rfl
    · rw [if_neg hneed]
      unfold store_chat_events
      dsimp only
      rw [List.map_append, step12_chatEvents, hpf]
      rfl
  · exact step11_texts o _ _

/-- A request with a phone number and no clarification pending. -/
def c1wreq : ChatRequest :=
  { user_id := "u".data, session_id := some 9
    message := "call 555-123-4567".data }

set_option maxRecDepth 40000 in
/-- C1 witness: a concrete completing run — the pipeline does not raise,
and the stored user chat event carries the masked message. -/
theorem c1_masked_persistence_witness :
    process_run oracle0 c1wreq emptyDB = some (process oracle0 c1wreq emptyDB)
    ∧ (((process oracle0 c1wreq emptyDB).2.chatEvents.map (fun e => (e.role, e.content)))
        = emptyDB.chatEvents.map (fun e => (e.role, e.content))
          ++ [("user".data, mask_pii c1wreq.message (detect_pii c1wreq.message)),
              ("assistant".data, (process oracle0 c1wreq emptyDB).1.reply)]) := by
  have hnr : pipeline_raises oracle0 c1wreq emptyDB = false := by
    with_unfolding_all decide
  have hmem : process_run oracle0 c1wreq emptyDB = some (process oracle0 c1wreq emptyDB) := by
    unfold process_run
    rw [hnr]
    simp
  exact ⟨hmem,
    (c1_masked_persistence oracle0 c1wreq emptyDB (process oracle0 c1wreq emptyDB) hmem).1⟩
